import Mathlib

/-!
# Verification of the RoboDK `robomath` pose-algebra module

Shallow embedding of `src/Python/robodk/robomath.py` over `ℝ`.

Modelling conventions:
* A Python `Mat` is a structure holding `rows : List (List ℝ)`.
* Python floats are modelled as real numbers; `math.sqrt` is `Real.sqrt`,
  `math.acos` is `Real.arccos`, `math.atan2 y x` is `Complex.arg ⟨x, y⟩`
  (both yield values in `(-π, π]` with `atan2 0 0 = 0`).
* Out-of-range indexing, which raises `IndexError` in Python, is modelled by
  `List.getD` with default `0`; no claim exercises an out-of-range access.
* In-place mutation is modelled by explicit state passing: a function that
  mutates a caller-visible object returns the new value of that object
  (see `quaternion_2_pose`, which aliases its input list).
* `raise Exception(MatrixError, ...)` is modelled by `Except MatErr`.
-/

namespace RoboDK

/-- Error kinds raised through `MatrixError` (spec section 7). -/
inductive MatErr where
  | shapeMismatch
  | invalidPose
  | invalidDimension
  deriving DecidableEq, Repr

/-- Embedding of the Python `Mat` object: a list of rows of reals. -/
structure Mat where
  rows : List (List ℝ)

/-- Element access `self.rows[i][j]` (two-integer `__getitem__`). -/
def Mat.get (M : Mat) (i j : ℕ) : ℝ :=
  (M.rows.getD i []).getD j 0

/-- Number of rows, `len(self.rows)` (the `m` of `size`). -/
def Mat.nrows (M : Mat) : ℕ := M.rows.length

/-- Number of columns, `len(self.rows[0])` when there is a row, else 0
(the `n` of `size`). -/
def Mat.ncols (M : Mat) : ℕ :=
  (M.rows.headD []).length

/-- `Mat.__len__`: returns `len(self.rows[0])`, the number of columns. -/
def Mat.pyLen (M : Mat) : ℕ :=
  (M.rows.headD []).length

/-- `Mat.ColsCount`: returns `len(self.rows[0])`, the number of columns. -/
def Mat.ColsCount (M : Mat) : ℕ :=
  (M.rows.headD []).length

/-- `Mat.RowsCount`: the source returns `len(self.rows[0])` here as well,
exactly as written in the code (not `len(self.rows)`). -/
def Mat.RowsCount (M : Mat) : ℕ :=
  (M.rows.headD []).length

/-- The `Mat(rows)` constructor branch for a list-of-lists argument:
an empty list yields the `[[]]` sentinel; if some row length differs from
the first row's, every row is padded on the right with zeros up to the
maximum supplied length (`n = max([len(i) for i in rows])`), never
truncating; otherwise the rows are taken as given. -/
def Mat.fromRows : List (List ℝ) → Mat
  | [] => ⟨[[]]⟩
  | r0 :: rest =>
    let n := r0.length
    if rest.any (fun r => r.length ≠ n) then
      let nmax := ((r0 :: rest).map List.length).foldr max 0
      ⟨(r0 :: rest).map (fun r => r ++ List.replicate (nmax - r.length) (0 : ℝ))⟩
    else
      ⟨r0 :: rest⟩

/-- The `Mat(rows, ncols)` numeric constructor: a zero-filled `m × n`
matrix, with the source's special case `m == 0 → rows = [[]]`. -/
def Mat.zeros (m n : ℕ) : Mat :=
  if m = 0 then ⟨[[]]⟩ else ⟨List.replicate m (List.replicate n (0 : ℝ))⟩

/-- `Mat.tr`: transpose via `zip(*self.rows)`; empty matrices collapse to
`Mat(0,0)` whose rows are `[[]]`. -/
def Mat.tr (M : Mat) : Mat :=
  if M.nrows = 0 ∨ M.ncols = 0 then ⟨[[]]⟩
  else ⟨(List.range M.ncols).map fun j => (List.range M.nrows).map fun i => M.get i j⟩

/-- Rectangular sub-block read `self[r1:r2, c1:c2]` (the two-slice branch of
`__getitem__`, for in-range non-negative slices with step 1). -/
def Mat.subMat (M : Mat) (r1 r2 c1 c2 : ℕ) : Mat :=
  ⟨(List.range (r2 - r1)).map fun i =>
    (List.range (c2 - c1)).map fun j => M.get (r1 + i) (c1 + j)⟩

/-- Rectangular sub-block write `self[r1:r2, c1:c2] = item` (the two-slice
branch of `__setitem__`, for in-range slices whose shape matches `item`, the
only shapes the library itself ever writes; a mismatched shape raises in the
source and is never exercised here). -/
def Mat.setRange (M : Mat) (r1 r2 c1 c2 : ℕ) (item : Mat) : Mat :=
  ⟨(List.range M.rows.length).map fun i =>
    (List.range ((M.rows.getD i []).length)).map fun j =>
      if r1 ≤ i ∧ i < r2 ∧ c1 ≤ j ∧ j < c2 then item.get (i - r1) (j - c1)
      else M.get i j⟩

/-- Single-element write `self[i, j] = v` (`__setitem__` wraps the scalar in
`Mat([[v]])` and assigns the 1×1 range). -/
def Mat.setElem (M : Mat) (i j : ℕ) (v : ℝ) : Mat :=
  M.setRange i (i + 1) j (j + 1) (Mat.fromRows [[v]])

/-- Scalar multiplication branch of `Mat.__mul__`. -/
def Mat.smul (M : Mat) (k : ℝ) : Mat :=
  ⟨M.rows.map fun r => r.map fun v => v * k⟩

/-- Matrix-product branch of `Mat.__mul__` (after the inner-dimension guard):
`mulmat.rows[x][y] = sum(item[0]*item[1] for item in zip(self.rows[x], mat_t.rows[y]))`. -/
def Mat.matmul (A B : Mat) : Mat :=
  ⟨A.rows.map fun ar => B.tr.rows.map fun bc => (List.zipWith (fun u v => u * v) ar bc).sum⟩

/-- `Mat.__mul__` with its inner-dimension guard (`ShapeMismatch` on failure). -/
def Mat.mulE (A B : Mat) : Except MatErr Mat :=
  if A.ncols ≠ B.nrows then .error .shapeMismatch else .ok (A.matmul B)

/-- `transl(tx, ty, tz)` (three scalar arguments). -/
def transl (tx ty tz : ℝ) : Mat :=
  Mat.fromRows [[1, 0, 0, tx], [0, 1, 0, ty], [0, 0, 1, tz], [0, 0, 0, 1]]

/-- `eye(size)`: the 4×4 case returns the literal identity; otherwise a
zero matrix with ones written down the diagonal. -/
def eye (size : ℕ) : Mat :=
  if size = 4 then
    Mat.fromRows [[1, 0, 0, 0], [0, 1, 0, 0], [0, 0, 1, 0], [0, 0, 0, 1]]
  else
    (List.range size).foldl (fun m i => m.setElem i i 1) (Mat.zeros size size)

/-- `Mat.Pos()`: the translation column `self[0:3, 3]` as a list. -/
def Mat.Pos (M : Mat) : List ℝ :=
  [M.get 0 3, M.get 1 3, M.get 2 3]

/-- `Mat.setPos(newpos)`: writes the three translation entries. -/
def Mat.setPos (M : Mat) (p : List ℝ) : Mat :=
  ((M.setElem 0 3 (p.getD 0 0)).setElem 1 3 (p.getD 1 0)).setElem 2 3 (p.getD 2 0)

/-- `sqrt` (`math.sqrt`). Negative arguments raise in Python; every in-scope
call site guards or clamps its argument, so the branch is never exercised. -/
noncomputable def sqrt (v : ℝ) : ℝ := Real.sqrt v

/-- `sqrtA(value)`: square root clamped to 0 for non-positive input. -/
noncomputable def sqrtA (v : ℝ) : ℝ :=
  if v ≤ 0 then 0 else sqrt v

/-- `acos` (`math.acos`). -/
noncomputable def acos (v : ℝ) : ℝ := Real.arccos v

/-- `atan2 y x` (`math.atan2`): the angle of `(x, y)` in `(-π, π]`, with
`atan2 0 0 = 0`, modelled by the complex argument of `x + y·i`. -/
noncomputable def atan2 (y x : ℝ) : ℝ := Complex.arg ⟨x, y⟩

/-- `norm(p)`: euclidean norm of a 3-vector. -/
noncomputable def norm (p : List ℝ) : ℝ :=
  sqrt (p.getD 0 0 * p.getD 0 0 + p.getD 1 0 * p.getD 1 0 + p.getD 2 0 * p.getD 2 0)

/-- `normalize3(a)`: scales a 3-vector by the inverse of its norm. -/
noncomputable def normalize3 (a : List ℝ) : List ℝ :=
  let norminv := 1 / norm a
  [a.getD 0 0 * norminv, a.getD 1 0 * norminv, a.getD 2 0 * norminv]

/-- `mult3(v, d)`: scales a 3-vector. -/
def mult3 (v : List ℝ) (d : ℝ) : List ℝ :=
  [v.getD 0 0 * d, v.getD 1 0 * d, v.getD 2 0 * d]

/-- `sin` (`math.sin`). -/
noncomputable def sin (v : ℝ) : ℝ := Real.sin v

/-- `cos` (`math.cos`). -/
noncomputable def cos (v : ℝ) : ℝ := Real.cos v

/-- The working matrix of `Mat.isHomogeneous`: `test = R·Rᵗ` for the
top-left 3×3 block `R = self[0:3,0:3]`, with `1.0` subtracted from each
diagonal entry in turn. -/
def Mat.homTest (M : Mat) : Mat :=
  let test0 := (M.subMat 0 3 0 3).matmul (M.subMat 0 3 0 3).tr
  let test1 := test0.setElem 0 0 (test0.get 0 0 - 1)
  let test2 := test1.setElem 1 1 (test1.get 1 1 - 1)
  test2.setElem 2 2 (test2.get 2 2 - 1)

/-- The aggregate absolute error `zero = Σ |test[x,y]|` accumulated by
`Mat.isHomogeneous` over the 3×3 working matrix. -/
noncomputable def Mat.homSum (M : Mat) : ℝ :=
  ((List.range 3).map fun x => ((List.range 3).map fun y => |M.homTest.get x y|).sum).sum

/-- `Mat.isHomogeneous()`: true iff the matrix is 4×4 and the aggregate
orthonormality defect does not exceed `1e-4` (the source returns `False`
when `zero > 1e-4`). The bottom row is not inspected (that check is
commented out in the source). -/
def Mat.isHomogeneous (M : Mat) : Prop :=
  M.nrows = 4 ∧ M.ncols = 4 ∧ M.homSum ≤ 1e-4

/-- The in-branch computation of `Mat.invH`: transpose, overwrite the
bottom-left `[3, 0:3]` range with zeros, then overwrite the translation
range `[0:3, 3]` with `(Hout[0:3,0:3] * self[0:3,3]) * (-1)`. -/
def Mat.invHval (M : Mat) : Mat :=
  let Hout0 := M.tr
  let Hout1 := Hout0.setRange 3 4 0 3 (Mat.fromRows [[0, 0, 0]])
  Hout1.setRange 0 3 3 4 (((Hout1.subMat 0 3 0 3).matmul (M.subMat 0 3 3 4)).smul (-1))

open Classical in
/-- `Mat.invH()` / `Mat.inv()` / module-level `invH(matrix)`: raises
`MatrixError` (an invalid-pose error) when `isHomogeneous()` is false,
otherwise returns the structural inverse. -/
noncomputable def Mat.invH (M : Mat) : Except MatErr Mat :=
  if M.isHomogeneous then .ok M.invHval else .error .invalidPose

/-- State-passing form of `Mat.invH` for the frame condition: every write in
the source targets `Hout`, which `tr()` builds as a fresh matrix, and `self`
is only read (via `tr`, `subMat` reads); so the caller's matrix after the
call — the second component — is `M` itself. -/
noncomputable def Mat.invHWithState (M : Mat) : Except MatErr Mat × Mat :=
  (M.invH, M)

/-- `quaternion_2_pose(qin)`: the Python source writes the normalised
components back into `q`, which is bound by `q = qin` and therefore aliases
the caller's list. The first component of the result is the returned pose;
the second component is the caller's list as it stands after the call (the
shared, normalised list). -/
noncomputable def quaternion_2_pose (qin : List ℝ) : Mat × List ℝ :=
  let qnorm := sqrt (qin.getD 0 0 * qin.getD 0 0 + qin.getD 1 0 * qin.getD 1 0 +
    qin.getD 2 0 * qin.getD 2 0 + qin.getD 3 0 * qin.getD 3 0)
  let q0 := qin.getD 0 0 / qnorm
  let q1 := qin.getD 1 0 / qnorm
  let q2 := qin.getD 2 0 / qnorm
  let q3 := qin.getD 3 0 / qnorm
  let pose := Mat.fromRows
    [[1 - 2*q2*q2 - 2*q3*q3, 2*q1*q2 - 2*q3*q0,     2*q1*q3 + 2*q2*q0,     0],
     [2*q1*q2 + 2*q3*q0,     1 - 2*q1*q1 - 2*q3*q3, 2*q2*q3 - 2*q1*q0,     0],
     [2*q1*q3 - 2*q2*q0,     2*q2*q3 + 2*q1*q0,     1 - 2*q1*q1 - 2*q2*q2, 0],
     [0,                     0,                     0,                     1]]
  (pose, [q0, q1, q2, q3])

/-- Euclidean norm of a quaternion 4-vector (the claim's ‖q‖; the source's
`norm` only covers 3-vectors). -/
noncomputable def qnorm4 (q : List ℝ) : ℝ :=
  Real.sqrt (q.getD 0 0 ^ 2 + q.getD 1 0 ^ 2 + q.getD 2 0 ^ 2 + q.getD 3 0 ^ 2)

/-- `TxyzRxyz_2_Pose([x,y,z,rx,ry,rz])`: pose from position (mm) and Euler
angles (rad), `H = transl(x,y,z)*rotx(rx)*roty(ry)*rotz(rz)`. -/
noncomputable def TxyzRxyz_2_Pose (xyzrpw : List ℝ) : Mat :=
  let x := xyzrpw.getD 0 0
  let y := xyzrpw.getD 1 0
  let z := xyzrpw.getD 2 0
  let rx := xyzrpw.getD 3 0
  let ry := xyzrpw.getD 4 0
  let rz := xyzrpw.getD 5 0
  let srx := sin rx
  let crx := cos rx
  let sry := sin ry
  let cry := cos ry
  let srz := sin rz
  let crz := cos rz
  Mat.fromRows
    [[cry * crz, -cry * srz, sry, x],
     [crx * srz + crz * srx * sry, crx * crz - srx * sry * srz, -cry * srx, y],
     [srx * srz - crx * crz * sry, crz * srx + crx * sry * srz, crx * cry, z],
     [0, 0, 0, 1]]

open Classical in
/-- `Pose_2_TxyzRxyz(H)`: position (mm) and Euler angles (rad) recovered
from a pose, with the two singular branches at `H[0,2] = ±1` (tolerance
`1e-10`). -/
noncomputable def Pose_2_TxyzRxyz (H : Mat) : List ℝ :=
  let x := H.get 0 3
  let y := H.get 1 3
  let z := H.get 2 3
  let a := H.get 0 0
  let b := H.get 0 1
  let c := H.get 0 2
  let d := H.get 1 2
  let e := H.get 2 2
  if c > 1 - 1e-10 then
    [x, y, z, 0, Real.pi / 2, atan2 (H.get 1 0) (H.get 1 1)]
  else if c < -1 + 1e-10 then
    [x, y, z, 0, -(Real.pi / 2), atan2 (H.get 1 0) (H.get 1 1)]
  else
    let sy := c
    let cy1 := sqrt (1 - sy * sy)
    let sx1 := -d / cy1
    let cx1 := e / cy1
    let sz1 := -b / cy1
    let cz1 := a / cy1
    [x, y, z, atan2 sx1 cx1, atan2 sy cy1, atan2 sz1 cz1]

/-- `xyzrpw_2_pose([x,y,z,r,p,w])`: pose from position (mm) and Euler
angles (deg), `H = transl(x,y,z)*rotz(w*pi/180)*roty(p*pi/180)*rotx(r*pi/180)`. -/
noncomputable def xyzrpw_2_pose (xyzrpw : List ℝ) : Mat :=
  let x := xyzrpw.getD 0 0
  let y := xyzrpw.getD 1 0
  let z := xyzrpw.getD 2 0
  let a := xyzrpw.getD 3 0 * Real.pi / 180
  let b := xyzrpw.getD 4 0 * Real.pi / 180
  let c := xyzrpw.getD 5 0 * Real.pi / 180
  let ca := cos a
  let sa := sin a
  let cb := cos b
  let sb := sin b
  let cc := cos c
  let sc := sin c
  Mat.fromRows
    [[cb * cc, cc * sa * sb - ca * sc, sa * sc + ca * cc * sb, x],
     [cb * sc, ca * cc + sa * sb * sc, ca * sb * sc - cc * sa, y],
     [-sb, cb * sa, ca * cb, z],
     [0, 0, 0, 1]]

open Classical in
/-- `pose_2_xyzrpw(H)`: position (mm) and ZYX Euler angles (deg), with the
two singular branches at `H[2,0] = ±1` (tolerance `1e-10`); the internal
radian triple `(r, p, w)` is scaled by `180/π` on return. -/
noncomputable def pose_2_xyzrpw (H : Mat) : List ℝ :=
  let x := H.get 0 3
  let y := H.get 1 3
  let z := H.get 2 3
  let rpw : ℝ × ℝ × ℝ :=
    if H.get 2 0 > 1 - 1e-10 then
      (0, -(Real.pi / 2), atan2 (-(H.get 1 2)) (H.get 1 1))
    else if H.get 2 0 < -1 + 1e-10 then
      (0, Real.pi / 2, atan2 (H.get 1 2) (H.get 1 1))
    else
      (atan2 (H.get 2 1) (H.get 2 2),
       atan2 (-(H.get 2 0)) (sqrt (H.get 0 0 * H.get 0 0 + H.get 1 0 * H.get 1 0)),
       atan2 (H.get 1 0) (H.get 0 0))
  [x, y, z, rpw.1 * 180 / Real.pi, rpw.2.1 * 180 / Real.pi, rpw.2.2 * 180 / Real.pi]

/-- `pose_angle(pose)`: `acos` of the clamped `(trace(R) - 1)/2`. -/
noncomputable def pose_angle (pose : Mat) : ℝ :=
  let cos_ang := (pose.get 0 0 + pose.get 1 1 + pose.get 2 2 - 1) / 2
  acos (min (max cos_ang (-1)) 1)

open Classical in
/-- `pose_2_quaternion(Ti)`: three-branch conversion selected by the clamped
`cosangle`; `diag.index(max(diag))` is the first index attaining the maximum
of the diagonal. -/
noncomputable def pose_2_quaternion (Ti : Mat) : List ℝ :=
  let cosangle := min (max ((Ti.get 0 0 + Ti.get 1 1 + Ti.get 2 2 - 1) * 0.5) (-1)) 1
  if cosangle > 1 - 1e-9 then
    [1, 0, 0, 0]
  else if cosangle < -1 + 1e-7 then
    let diag : List ℝ := [Ti.get 0 0, Ti.get 1 1, Ti.get 2 2]
    let k : ℕ :=
      if diag.getD 0 0 ≥ diag.getD 1 0 ∧ diag.getD 0 0 ≥ diag.getD 2 0 then 0
      else if diag.getD 1 0 ≥ diag.getD 2 0 then 1 else 2
    let col : List ℝ := [Ti.get 0 k, Ti.get 1 k, Ti.get 2 k]
    let col := col.set k (col.getD k 0 + 1)
    let rotvector := col.map fun v => v / sqrtA (2 * (1 + diag.getD k 0))
    [0, rotvector.getD 0 0, rotvector.getD 1 0, rotvector.getD 2 0]
  else
    let a := Ti.get 0 0
    let b := Ti.get 1 1
    let c := Ti.get 2 2
    let sign2 : ℝ := if Ti.get 2 1 - Ti.get 1 2 < 0 then -1 else 1
    let sign3 : ℝ := if Ti.get 0 2 - Ti.get 2 0 < 0 then -1 else 1
    let sign4 : ℝ := if Ti.get 1 0 - Ti.get 0 1 < 0 then -1 else 1
    [sqrt (max (a + b + c + 1) 0) / 2,
     sign2 * sqrt (max (a - b - c + 1) 0) / 2,
     sign3 * sqrt (max (-a + b - c + 1) 0) / 2,
     sign4 * sqrt (max (-a - b + c + 1) 0) / 2]

open Classical in
/-- `Pose_2_UR(pose)`: position with axis-angle rotation vector; the
degenerate branch (`|sin angle|` or the raw-axis norm below `1e-8`)
extracts the axis from the column of the first largest diagonal entry
(`mx = max(d3)`, `mx_id = d3.index(mx)`). -/
noncomputable def Pose_2_UR (pose : Mat) : List ℝ :=
  let angle := acos (min (max ((pose.get 0 0 + pose.get 1 1 + pose.get 2 2 - 1) * 0.5) (-1)) 1)
  let rxyz0 : List ℝ :=
    [pose.get 2 1 - pose.get 1 2, pose.get 0 2 - pose.get 2 0, pose.get 1 0 - pose.get 0 1]
  let rxyz : List ℝ :=
    if angle < 1e-8 then [0, 0, 0]
    else
      let sin_angle := sin angle
      if |sin_angle| < 1e-8 ∨ norm rxyz0 < 1e-8 then
        let d3 : List ℝ := [pose.get 0 0, pose.get 1 1, pose.get 2 2]
        let mx_id : ℕ :=
          if d3.getD 0 0 ≥ d3.getD 1 0 ∧ d3.getD 0 0 ≥ d3.getD 2 0 then 0
          else if d3.getD 1 0 ≥ d3.getD 2 0 then 1 else 2
        let mx := d3.getD mx_id 0
        let rxyz1 : List ℝ :=
          if mx_id = 0 then [pose.get 0 0 + 1, pose.get 1 0, pose.get 2 0]
          else if mx_id = 1 then [pose.get 0 1, pose.get 1 1 + 1, pose.get 2 1]
          else [pose.get 0 2, pose.get 1 2, pose.get 2 2 + 1]
        mult3 rxyz1 (angle / sqrt (max 0 (2 * (1 + mx))))
      else
        mult3 (normalize3 rxyz0) angle
  [pose.get 0 3, pose.get 1 3, pose.get 2 3, rxyz.getD 0 0, rxyz.getD 1 0, rxyz.getD 2 0]

open Classical in
/-- `UR_2_Pose(xyzwpr)`: pose from a cartesian target with rotation vector,
via the equivalent quaternion. -/
noncomputable def UR_2_Pose (xyzwpr : List ℝ) : Mat :=
  let x := xyzwpr.getD 0 0
  let y := xyzwpr.getD 1 0
  let z := xyzwpr.getD 2 0
  let w := xyzwpr.getD 3 0
  let p := xyzwpr.getD 4 0
  let r := xyzwpr.getD 5 0
  let wpr : List ℝ := [w, p, r]
  let angle := norm wpr
  let cosang := cos (0.5 * angle)
  let q234 : List ℝ := if angle = 0 then [0, 0, 0] else mult3 wpr (sin (0.5 * angle) / angle)
  let q1234 : List ℝ := [cosang, q234.getD 0 0, q234.getD 1 0, q234.getD 2 0]
  ((quaternion_2_pose q1234).1).setPos [x, y, z]

open Classical in
/-- `Pose_Split(pose1, pose2, delta_mm)`: the relative transform
`invH(pose1) * pose2` decomposed into `steps = max(1, int(distance/delta_mm))`
sub-steps through the rotation-vector form; `int()` truncates toward zero,
which on the positive quotients reached in this branch is the floor. The
products with `UR_2_Pose(...)` inside the loop are between 4×4 matrices, so
the `__mul__` dimension guard cannot fire there. -/
noncomputable def Pose_Split (pose1 pose2 : Mat) (delta_mm : ℝ) : Except MatErr (List Mat) :=
  match pose1.invH with
  | .error e => .error e
  | .ok inv1 =>
    match inv1.mulE pose2 with
    | .error e => .error e
    | .ok pose_delta =>
      let distance := norm pose_delta.Pos
      if distance ≤ delta_mm then .ok [pose2]
      else
        let xyzwpr := Pose_2_UR pose_delta
        let steps : ℤ := max 1 ⌊distance / delta_mm⌋
        let xd := xyzwpr.getD 0 0 / (steps : ℝ)
        let yd := xyzwpr.getD 1 0 / (steps : ℝ)
        let zd := xyzwpr.getD 2 0 / (steps : ℝ)
        let wd := xyzwpr.getD 3 0 / (steps : ℝ)
        let pd := xyzwpr.getD 4 0 / (steps : ℝ)
        let rd := xyzwpr.getD 5 0 / (steps : ℝ)
        .ok ((List.range (steps - 1).toNat).map fun i =>
          let factor : ℝ := (i : ℝ) + 1
          pose1.matmul (UR_2_Pose
            [xd * factor, yd * factor, zd * factor, wd * factor, pd * factor, rd * factor]))

end RoboDK

namespace RoboDK

/-! ## Theorems -/

set_option maxHeartbeats 1000000

/-- Row-orthonormality of a 3×3 block implies column-orthonormality
(a right inverse of a square matrix is a left inverse). -/
theorem rot_cols_of_rows (a b c d e f g h i : ℝ)
    (h1 : a*a + b*b + c*c = 1) (h2 : d*d + e*e + f*f = 1) (h3 : g*g + h*h + i*i = 1)
    (h4 : a*d + b*e + c*f = 0) (h5 : a*g + b*h + c*i = 0) (h6 : d*g + e*h + f*i = 0) :
    (a*a + d*d + g*g = 1) ∧ (b*b + e*e + h*h = 1) ∧ (c*c + f*f + i*i = 1) ∧
    (a*b + d*e + g*h = 0) ∧ (a*c + d*f + g*i = 0) ∧ (b*c + e*f + h*i = 0) := by
  have hA : (!![a,b,c; d,e,f; g,h,i] : Matrix (Fin 3) (Fin 3) ℝ) *
      (!![a,d,g; b,e,h; c,f,i] : Matrix (Fin 3) (Fin 3) ℝ) = 1 := by
    ext r s
    fin_cases r <;> fin_cases s <;>
      simp [Matrix.mul_apply, Fin.sum_univ_three, Matrix.one_apply] <;> linarith
  have hB := Matrix.mul_eq_one_comm.mp hA
  have e00 := congrFun (congrFun hB 0) 0
  have e01 := congrFun (congrFun hB 0) 1
  have e02 := congrFun (congrFun hB 0) 2
  have e11 := congrFun (congrFun hB 1) 1
  have e12 := congrFun (congrFun hB 1) 2
  have e22 := congrFun (congrFun hB 2) 2
  simp [Matrix.mul_apply, Fin.sum_univ_three, Matrix.one_apply] at e00 e01 e02 e11 e12 e22
  refine ⟨by linarith, by linarith, by linarith, by linarith, by linarith, by linarith⟩

/-- A row-orthonormal 3×3 block with determinant 1 equals its own cofactor
matrix (its adjugate is its transpose). -/
theorem rot_cofactors (a b c d e f g h i : ℝ)
    (h1 : a*a + b*b + c*c = 1) (h2 : d*d + e*e + f*f = 1) (h3 : g*g + h*h + i*i = 1)
    (h4 : a*d + b*e + c*f = 0) (h5 : a*g + b*h + c*i = 0) (h6 : d*g + e*h + f*i = 0)
    (hdet : a*(e*i - f*h) - b*(d*i - f*g) + c*(d*h - e*g) = 1) :
    (e*i - f*h = a) ∧ (f*g - d*i = b) ∧ (d*h - e*g = c) ∧
    (c*h - b*i = d) ∧ (a*i - c*g = e) ∧ (b*g - a*h = f) ∧
    (b*f - c*e = g) ∧ (c*d - a*f = h) ∧ (a*e - b*d = i) := by
  have hA : (!![a,b,c; d,e,f; g,h,i] : Matrix (Fin 3) (Fin 3) ℝ) *
      (!![a,d,g; b,e,h; c,f,i] : Matrix (Fin 3) (Fin 3) ℝ) = 1 := by
    ext r s
    fin_cases r <;> fin_cases s <;>
      simp [Matrix.mul_apply, Fin.sum_univ_three, Matrix.one_apply] <;> linarith
  have hB := Matrix.mul_eq_one_comm.mp hA
  have hdet' : (!![a,b,c; d,e,f; g,h,i] : Matrix (Fin 3) (Fin 3) ℝ).det = 1 := by
    rw [Matrix.det_fin_three]
    norm_num
    linear_combination hdet
  have hadj : (!![a,b,c; d,e,f; g,h,i] : Matrix (Fin 3) (Fin 3) ℝ).adjugate
      = (!![a,d,g; b,e,h; c,f,i] : Matrix (Fin 3) (Fin 3) ℝ) := by
    calc (!![a,b,c; d,e,f; g,h,i] : Matrix (Fin 3) (Fin 3) ℝ).adjugate
        = ((!![a,d,g; b,e,h; c,f,i] : Matrix (Fin 3) (Fin 3) ℝ) * !![a,b,c; d,e,f; g,h,i]) *
            (!![a,b,c; d,e,f; g,h,i] : Matrix (Fin 3) (Fin 3) ℝ).adjugate := by
          rw [hB, Matrix.one_mul]
      _ = (!![a,d,g; b,e,h; c,f,i] : Matrix (Fin 3) (Fin 3) ℝ) *
            (!![a,b,c; d,e,f; g,h,i] *
              (!![a,b,c; d,e,f; g,h,i] : Matrix (Fin 3) (Fin 3) ℝ).adjugate) := by
          rw [Matrix.mul_assoc]
      _ = (!![a,d,g; b,e,h; c,f,i] : Matrix (Fin 3) (Fin 3) ℝ) := by
          rw [Matrix.mul_adjugate, hdet', one_smul, Matrix.mul_one]
  rw [Matrix.adjugate_fin_three_of] at hadj
  have k00 := congrFun (congrFun hadj 0) 0
  have k01 := congrFun (congrFun hadj 0) 1
  have k02 := congrFun (congrFun hadj 0) 2
  have k10 := congrFun (congrFun hadj 1) 0
  have k11 := congrFun (congrFun hadj 1) 1
  have k12 := congrFun (congrFun hadj 1) 2
  have k20 := congrFun (congrFun hadj 2) 0
  have k21 := congrFun (congrFun hadj 2) 1
  have k22 := congrFun (congrFun hadj 2) 2
  simp at k00 k01 k02 k10 k11 k12 k20 k21 k22
  refine ⟨by linarith, by linarith, by linarith, by linarith, by linarith, by linarith,
    by linarith, by linarith, by linarith⟩

/-- A 4×4 matrix whose top-left 3×3 block has exactly orthonormal rows
passes `isHomogeneous` (the aggregate defect is 0), whatever its fourth
column and fourth row hold. -/
theorem isHomogeneous_of_orthonormal (a b c d e f g h i x y z p q r s : ℝ)
    (h1 : a*a + b*b + c*c = 1) (h2 : d*d + e*e + f*f = 1) (h3 : g*g + h*h + i*i = 1)
    (h4 : a*d + b*e + c*f = 0) (h5 : a*g + b*h + c*i = 0) (h6 : d*g + e*h + f*i = 0) :
    (Mat.mk [[a,b,c,x],[d,e,f,y],[g,h,i,z],[p,q,r,s]]).isHomogeneous := by
  refine ⟨rfl, rfl, ?_⟩
  simp only [Mat.homSum, Mat.homTest, Mat.setElem, Mat.setRange, Mat.subMat, Mat.matmul,
    Mat.tr, Mat.get, Mat.fromRows, Mat.nrows, Mat.ncols, List.range_succ]
  simp [Mat.get, List.range_succ]
  have k1 : a * a + (b * b + c * c) - 1 = 0 := by linear_combination h1
  have k2 : a * d + (b * e + c * f) = 0 := by linear_combination h4
  have k3 : a * g + (b * h + c * i) = 0 := by linear_combination h5
  have k4 : d * a + (e * b + f * c) = 0 := by linear_combination h4
  have k5 : d * d + (e * e + f * f) - 1 = 0 := by linear_combination h2
  have k6 : d * g + (e * h + f * i) = 0 := by linear_combination h6
  have k7 : g * a + (h * b + i * c) = 0 := by linear_combination h5
  have k8 : g * d + (h * e + i * f) = 0 := by linear_combination h6
  have k9 : g * g + (h * h + i * i) - 1 = 0 := by linear_combination h3
  rw [k1, k2, k3, k4, k5, k6, k7, k8, k9]
  norm_num

/-- C6 (amended): for every 4×4 matrix `M`, `invH` raises the invalid-pose
error iff `isHomogeneous()` is false; when it is true the result `H` has
`H[0:3,0:3] = M[0:3,0:3]ᵗ`, `H[0:3,3] = -(M[0:3,0:3]ᵗ · M[0:3,3])`, and its
bottom row is `[0, 0, 0, M[3,3]]` (the source never writes `H[3,3]`, so the
original claim's `[0,0,0,1]` only holds when `M[3,3] = 1`); `M` itself is
left unchanged by the call. -/
theorem claim_C6 (M : Mat)
    (m00 m01 m02 m03 m10 m11 m12 m13 m20 m21 m22 m23 m30 m31 m32 m33 : ℝ)
    (hM : M.rows = [[m00, m01, m02, m03], [m10, m11, m12, m13],
                    [m20, m21, m22, m23], [m30, m31, m32, m33]]) :
    (M.invH = .error .invalidPose ↔ ¬ M.isHomogeneous) ∧
    (M.isHomogeneous → M.invH = .ok M.invHval) ∧
    (M.invHval.subMat 0 3 0 3 = (M.subMat 0 3 0 3).tr) ∧
    (M.invHval.subMat 0 3 3 4 = ((M.subMat 0 3 0 3).tr.matmul (M.subMat 0 3 3 4)).smul (-1)) ∧
    (M.invHval.subMat 3 4 0 4 = Mat.fromRows [[0, 0, 0, m33]]) ∧
    (M.invHWithState.2 = M) := by
  obtain ⟨rows⟩ := M
  simp only [Mat.mk.injEq] at hM
  subst hM
  refine ⟨?_, ?_, ?_, ?_, ?_, rfl⟩
  · unfold Mat.invH
    by_cases h : (Mat.mk [[m00, m01, m02, m03], [m10, m11, m12, m13],
        [m20, m21, m22, m23], [m30, m31, m32, m33]]).isHomogeneous
    · rw [if_pos h]; simp [h]
    · rw [if_neg h]; simp [h]
  · intro h
    unfold Mat.invH
    rw [if_pos h]
  · simp [Mat.invHval, Mat.subMat, Mat.tr, Mat.setRange, Mat.matmul, Mat.smul, Mat.get,
      Mat.nrows, Mat.ncols, List.range_succ]
  · simp [Mat.invHval, Mat.subMat, Mat.tr, Mat.setRange, Mat.matmul, Mat.smul, Mat.get,
      Mat.nrows, Mat.ncols, List.range_succ]
  · simp [Mat.invHval, Mat.subMat, Mat.tr, Mat.setRange, Mat.matmul, Mat.smul, Mat.get,
      Mat.fromRows, Mat.nrows, Mat.ncols, List.range_succ]

/-- C6 counterexample: `diag(1,1,1,5)` passes `isHomogeneous` (the bottom
row is not checked), yet `invH` keeps `H[3,3] = 5`, so the claimed bottom
row `[0,0,0,1]` fails. -/
theorem claim_C6_counterexample :
    (Mat.fromRows [[1,0,0,0],[0,1,0,0],[0,0,1,0],[0,0,0,5]]).isHomogeneous ∧
    (Mat.fromRows [[1,0,0,0],[0,1,0,0],[0,0,1,0],[0,0,0,5]]).invH =
      .ok ((Mat.fromRows [[1,0,0,0],[0,1,0,0],[0,0,1,0],[0,0,0,5]]).invHval) ∧
    (Mat.fromRows [[1,0,0,0],[0,1,0,0],[0,0,1,0],[0,0,0,5]]).invHval.get 3 3 = 5 ∧
    (5 : ℝ) ≠ 1 := by
  have hhom : (Mat.fromRows [[1,0,0,0],[0,1,0,0],[0,0,1,0],[0,0,0,5]]).isHomogeneous := by
    refine ⟨rfl, rfl, ?_⟩
    norm_num [Mat.homSum, Mat.homTest, Mat.setElem, Mat.setRange, Mat.subMat, Mat.matmul,
      Mat.tr, Mat.get, Mat.fromRows, Mat.nrows, Mat.ncols, List.range_succ]
  refine ⟨hhom, ?_, ?_, by norm_num⟩
  · unfold Mat.invH
    rw [if_pos hhom]
  · norm_num [Mat.invHval, Mat.setRange, Mat.subMat, Mat.matmul, Mat.smul, Mat.tr, Mat.get,
      Mat.fromRows, Mat.nrows, Mat.ncols, List.range_succ]

/-- Witness for C6 at the 4×4 identity. -/
theorem claim_C6_witness :
    (Mat.mk [[1,0,0,0],[0,1,0,0],[0,0,1,0],[0,0,0,1]]).invH = .error .invalidPose ↔
      ¬ (Mat.mk [[1,0,0,0],[0,1,0,0],[0,0,1,0],[0,0,0,1]]).isHomogeneous :=
  (claim_C6 (Mat.mk [[1,0,0,0],[0,1,0,0],[0,0,1,0],[0,0,0,1]])
    1 0 0 0 0 1 0 0 0 0 1 0 0 0 0 1 rfl).1

/-- C7 (amended): for every pose whose rotation block is exactly orthonormal
and whose bottom row is `[0,0,0,1]`, `P * invH(P)` equals `Identity(4)`
exactly and `invH(invH(P))` equals `P` exactly (so in particular within
1e-9); under the code's 1e-4 homogeneity tolerance alone the 1e-9 bound is
false, see the counterexample. -/
theorem claim_C7 (a b c d e f g h i x y z : ℝ)
    (h1 : a*a + b*b + c*c = 1) (h2 : d*d + e*e + f*f = 1) (h3 : g*g + h*h + i*i = 1)
    (h4 : a*d + b*e + c*f = 0) (h5 : a*g + b*h + c*i = 0) (h6 : d*g + e*h + f*i = 0) :
    (Mat.mk [[a,b,c,x],[d,e,f,y],[g,h,i,z],[0,0,0,1]]).invH =
      .ok (Mat.mk [[a,b,c,x],[d,e,f,y],[g,h,i,z],[0,0,0,1]]).invHval ∧
    ((Mat.mk [[a,b,c,x],[d,e,f,y],[g,h,i,z],[0,0,0,1]]).matmul
      (Mat.mk [[a,b,c,x],[d,e,f,y],[g,h,i,z],[0,0,0,1]]).invHval) = eye 4 ∧
    (Mat.mk [[a,b,c,x],[d,e,f,y],[g,h,i,z],[0,0,0,1]]).invHval.invH =
      .ok (Mat.mk [[a,b,c,x],[d,e,f,y],[g,h,i,z],[0,0,0,1]]).invHval.invHval ∧
    (Mat.mk [[a,b,c,x],[d,e,f,y],[g,h,i,z],[0,0,0,1]]).invHval.invHval =
      Mat.mk [[a,b,c,x],[d,e,f,y],[g,h,i,z],[0,0,0,1]] := by
  obtain ⟨c1, c2, c3, c4, c5, c6⟩ := rot_cols_of_rows a b c d e f g h i h1 h2 h3 h4 h5 h6
  have hhomP := isHomogeneous_of_orthonormal a b c d e f g h i x y z 0 0 0 1 h1 h2 h3 h4 h5 h6
  have hQ : (Mat.mk [[a,b,c,x],[d,e,f,y],[g,h,i,z],[0,0,0,1]]).invHval =
      Mat.mk [[a, d, g, -(g*z) + -(d*y) + -(a*x)],
              [b, e, h, -(h*z) + -(e*y) + -(b*x)],
              [c, f, i, -(i*z) + -(f*y) + -(c*x)],
              [0, 0, 0, 1]] := by
    simp [Mat.invHval, Mat.setRange, Mat.subMat, Mat.matmul, Mat.smul, Mat.tr, Mat.get,
      Mat.fromRows, Mat.nrows, Mat.ncols, List.range_succ]
  have hhomQ := isHomogeneous_of_orthonormal a d g b e h c f i
    (-(g*z) + -(d*y) + -(a*x)) (-(h*z) + -(e*y) + -(b*x)) (-(i*z) + -(f*y) + -(c*x)) 0 0 0 1
    c1 c2 c3 c4 c5 c6
  refine ⟨?_, ?_, ?_, ?_⟩
  · unfold Mat.invH
    rw [if_pos hhomP]
  · simp only [eye, if_pos]
    simp [Mat.invHval, Mat.setRange, Mat.subMat, Mat.matmul, Mat.smul, Mat.tr, Mat.get,
      Mat.fromRows, Mat.nrows, Mat.ncols, List.range_succ]
    refine ⟨⟨by linear_combination h1, by linear_combination h4, by linear_combination h5,
        by linear_combination (-x)*h1 - y*h4 - z*h5⟩,
      ⟨by linear_combination h4, by linear_combination h2, by linear_combination h6,
        by linear_combination (-x)*h4 - y*h2 - z*h6⟩,
      by linear_combination h5, by linear_combination h6, by linear_combination h3,
      by linear_combination (-x)*h5 - y*h6 - z*h3⟩
  · unfold Mat.invH
    rw [hQ, if_pos hhomQ]
  · rw [hQ]
    simp [Mat.invHval, Mat.setRange, Mat.subMat, Mat.matmul, Mat.smul, Mat.tr, Mat.get,
      Mat.fromRows, Mat.nrows, Mat.ncols, List.range_succ]
    refine ⟨by linear_combination x*h1 + y*h4 + z*h5,
      by linear_combination x*h4 + y*h2 + z*h6,
      by linear_combination x*h5 + y*h6 + z*h3⟩

/-- C7 counterexample: `diag(1 + 4e-5, 1, 1, 1)` passes the code's 1e-4
homogeneity tolerance, yet `(P * invH(P))[0,0]` differs from the identity
by about 8e-5, far beyond the claimed 1e-9. -/
theorem claim_C7_counterexample :
    (Mat.fromRows [[1 + 1/25000,0,0,0],[0,1,0,0],[0,0,1,0],[0,0,0,1]]).isHomogeneous ∧
    (Mat.fromRows [[1 + 1/25000,0,0,0],[0,1,0,0],[0,0,1,0],[0,0,0,1]]).invH =
      .ok (Mat.fromRows [[1 + 1/25000,0,0,0],[0,1,0,0],[0,0,1,0],[0,0,0,1]]).invHval ∧
    |((Mat.fromRows [[1 + 1/25000,0,0,0],[0,1,0,0],[0,0,1,0],[0,0,0,1]]).matmul
        (Mat.fromRows [[1 + 1/25000,0,0,0],[0,1,0,0],[0,0,1,0],[0,0,0,1]]).invHval).get 0 0 -
      (eye 4).get 0 0| > 1e-9 := by
  have hhom : (Mat.fromRows [[1 + 1/25000,0,0,0],[0,1,0,0],[0,0,1,0],[0,0,0,1]]).isHomogeneous := by
    refine ⟨rfl, rfl, ?_⟩
    norm_num [Mat.homSum, Mat.homTest, Mat.setElem, Mat.setRange, Mat.subMat, Mat.matmul,
      Mat.tr, Mat.get, Mat.fromRows, Mat.nrows, Mat.ncols, List.range_succ]
    rw [abs_of_nonneg (by norm_num)]
    norm_num
  refine ⟨hhom, ?_, ?_⟩
  · unfold Mat.invH
    rw [if_pos hhom]
  · norm_num [eye, Mat.invHval, Mat.setRange, Mat.subMat, Mat.matmul, Mat.smul, Mat.tr, Mat.get,
      Mat.fromRows, Mat.nrows, Mat.ncols, List.range_succ]
    rw [abs_of_nonneg (by norm_num)]
    norm_num

/-- Witness for C7 at the identity pose. -/
theorem claim_C7_witness :
    ((Mat.mk [[1,0,0,0],[0,1,0,0],[0,0,1,0],[0,0,0,1]]).matmul
      (Mat.mk [[1,0,0,0],[0,1,0,0],[0,0,1,0],[0,0,0,1]]).invHval) = eye 4 :=
  (claim_C7 1 0 0 0 1 0 0 0 1 0 0 0 (by norm_num) (by norm_num) (by norm_num)
    (by norm_num) (by norm_num) (by norm_num)).2.1



theorem atan2_sin_cos (θ : ℝ) (h : θ ∈ Set.Ioc (-Real.pi) Real.pi) :
    atan2 (Real.sin θ) (Real.cos θ) = θ := by
  unfold atan2
  rw [Complex.mk_eq_add_mul_I, Complex.ofReal_cos, Complex.ofReal_sin]
  exact Complex.arg_cos_add_sin_mul_I h

theorem atan2_pos_smul (k y x : ℝ) (hk : 0 < k) : atan2 (k * y) (k * x) = atan2 y x := by
  unfold atan2
  rw [show (⟨k * x, k * y⟩ : ℂ) = (k : ℝ) * ⟨x, y⟩ by apply Complex.ext <;> simp]
  exact Complex.arg_real_mul _ hk

theorem Pose_2_TxyzRxyz_else (H : Mat)
    (h1 : ¬ H.get 0 2 > 1 - 1e-10) (h2 : ¬ H.get 0 2 < -1 + 1e-10) :
    Pose_2_TxyzRxyz H =
      [H.get 0 3, H.get 1 3, H.get 2 3,
       atan2 (-(H.get 1 2) / sqrt (1 - H.get 0 2 * H.get 0 2))
             (H.get 2 2 / sqrt (1 - H.get 0 2 * H.get 0 2)),
       atan2 (H.get 0 2) (sqrt (1 - H.get 0 2 * H.get 0 2)),
       atan2 (-(H.get 0 1) / sqrt (1 - H.get 0 2 * H.get 0 2))
             (H.get 0 0 / sqrt (1 - H.get 0 2 * H.get 0 2))] := by
  unfold Pose_2_TxyzRxyz
  rw [if_neg h1, if_neg h2]

theorem TxyzRxyz_roundtrip_exact (x y z rx ry rz : ℝ)
    (hrx : rx ∈ Set.Ioc (-Real.pi) Real.pi)
    (hry : ry ∈ Set.Ioo (-(Real.pi/2)) (Real.pi/2))
    (hrz : rz ∈ Set.Ioc (-Real.pi) Real.pi)
    (hband : |Real.sin ry| ≤ 1 - 1e-10) :
    Pose_2_TxyzRxyz (TxyzRxyz_2_Pose [x, y, z, rx, ry, rz]) = [x, y, z, rx, ry, rz] := by
  have hcy : 0 < Real.cos ry := Real.cos_pos_of_mem_Ioo hry
  have habs := abs_le.mp hband
  have h1 : ¬ (TxyzRxyz_2_Pose [x, y, z, rx, ry, rz]).get 0 2 > 1 - 1e-10 := by
    show ¬ (Real.sin ry > 1 - 1e-10)
    linarith [habs.2]
  have h2 : ¬ (TxyzRxyz_2_Pose [x, y, z, rx, ry, rz]).get 0 2 < -1 + 1e-10 := by
    show ¬ (Real.sin ry < -1 + 1e-10)
    linarith [habs.1]
  rw [Pose_2_TxyzRxyz_else _ h1 h2]
  show [x, y, z,
       atan2 (-(-(Real.cos ry) * Real.sin rx) / sqrt (1 - Real.sin ry * Real.sin ry))
             (Real.cos rx * Real.cos ry / sqrt (1 - Real.sin ry * Real.sin ry)),
       atan2 (Real.sin ry) (sqrt (1 - Real.sin ry * Real.sin ry)),
       atan2 (-(-(Real.cos ry) * Real.sin rz) / sqrt (1 - Real.sin ry * Real.sin ry))
             (Real.cos ry * Real.cos rz / sqrt (1 - Real.sin ry * Real.sin ry))]
     = [x, y, z, rx, ry, rz]
  have hcy1 : sqrt (1 - Real.sin ry * Real.sin ry) = Real.cos ry := by
    unfold sqrt
    rw [show 1 - Real.sin ry * Real.sin ry = Real.cos ry ^ 2 by
      have := Real.sin_sq_add_cos_sq ry
      nlinarith]
    exact Real.sqrt_sq (le_of_lt hcy)
  rw [hcy1]
  rw [show -(-(Real.cos ry) * Real.sin rx) / Real.cos ry = Real.sin rx by
    rw [div_eq_iff (ne_of_gt hcy)]; ring]
  rw [show Real.cos rx * Real.cos ry / Real.cos ry = Real.cos rx by
    rw [div_eq_iff (ne_of_gt hcy)]]
  rw [show -(-(Real.cos ry) * Real.sin rz) / Real.cos ry = Real.sin rz by
    rw [div_eq_iff (ne_of_gt hcy)]; ring]
  rw [show Real.cos ry * Real.cos rz / Real.cos ry = Real.cos rz by
    rw [div_eq_iff (ne_of_gt hcy)]; ring]
  have hryIoc : ry ∈ Set.Ioc (-Real.pi) Real.pi := by
    obtain ⟨hl, hr⟩ := hry
    constructor
    · nlinarith [Real.pi_pos]
    · nlinarith [Real.pi_pos]
  rw [atan2_sin_cos rx hrx, atan2_sin_cos ry hryIoc, atan2_sin_cos rz hrz]



theorem pose_2_xyzrpw_else (H : Mat)
    (h1 : ¬ H.get 2 0 > 1 - 1e-10) (h2 : ¬ H.get 2 0 < -1 + 1e-10) :
    pose_2_xyzrpw H =
      [H.get 0 3, H.get 1 3, H.get 2 3,
       atan2 (H.get 2 1) (H.get 2 2) * 180 / Real.pi,
       atan2 (-(H.get 2 0)) (sqrt (H.get 0 0 * H.get 0 0 + H.get 1 0 * H.get 1 0)) * 180 / Real.pi,
       atan2 (H.get 1 0) (H.get 0 0) * 180 / Real.pi] := by
  unfold pose_2_xyzrpw
  rw [if_neg h1, if_neg h2]

theorem xyzrpw_roundtrip_exact (x y z r p w : ℝ)
    (hr : r ∈ Set.Ioc (-180 : ℝ) 180)
    (hp : p ∈ Set.Ioo (-90 : ℝ) 90)
    (hw : w ∈ Set.Ioc (-180 : ℝ) 180)
    (hband : |Real.sin (p * Real.pi / 180)| ≤ 1 - 1e-10) :
    pose_2_xyzrpw (xyzrpw_2_pose [x, y, z, r, p, w]) = [x, y, z, r, p, w] := by
  have hpi := Real.pi_pos
  have ha : r * Real.pi / 180 ∈ Set.Ioc (-Real.pi) Real.pi := by
    obtain ⟨hl, hu⟩ := hr
    constructor
    · nlinarith
    · nlinarith
  have hc : w * Real.pi / 180 ∈ Set.Ioc (-Real.pi) Real.pi := by
    obtain ⟨hl, hu⟩ := hw
    constructor
    · nlinarith
    · nlinarith
  have hb : p * Real.pi / 180 ∈ Set.Ioo (-(Real.pi/2)) (Real.pi/2) := by
    obtain ⟨hl, hu⟩ := hp
    constructor
    · nlinarith
    · nlinarith
  have hcb : 0 < Real.cos (p * Real.pi / 180) := Real.cos_pos_of_mem_Ioo hb
  have habs := abs_le.mp hband
  have h1 : ¬ (xyzrpw_2_pose [x, y, z, r, p, w]).get 2 0 > 1 - 1e-10 := by
    show ¬ (-(Real.sin (p * Real.pi / 180)) > 1 - 1e-10)
    linarith [habs.1]
  have h2 : ¬ (xyzrpw_2_pose [x, y, z, r, p, w]).get 2 0 < -1 + 1e-10 := by
    show ¬ (-(Real.sin (p * Real.pi / 180)) < -1 + 1e-10)
    linarith [habs.2]
  rw [pose_2_xyzrpw_else _ h1 h2]
  show [x, y, z,
       atan2 (Real.cos (p * Real.pi / 180) * Real.sin (r * Real.pi / 180))
             (Real.cos (r * Real.pi / 180) * Real.cos (p * Real.pi / 180)) * 180 / Real.pi,
       atan2 (-(-(Real.sin (p * Real.pi / 180))))
             (sqrt (Real.cos (p * Real.pi / 180) * Real.cos (w * Real.pi / 180) *
                      (Real.cos (p * Real.pi / 180) * Real.cos (w * Real.pi / 180)) +
                    Real.cos (p * Real.pi / 180) * Real.sin (w * Real.pi / 180) *
                      (Real.cos (p * Real.pi / 180) * Real.sin (w * Real.pi / 180)))) * 180 / Real.pi,
       atan2 (Real.cos (p * Real.pi / 180) * Real.sin (w * Real.pi / 180))
             (Real.cos (p * Real.pi / 180) * Real.cos (w * Real.pi / 180)) * 180 / Real.pi]
     = [x, y, z, r, p, w]
  rw [neg_neg]
  rw [show Real.cos (p * Real.pi / 180) * Real.cos (w * Real.pi / 180) *
        (Real.cos (p * Real.pi / 180) * Real.cos (w * Real.pi / 180)) +
      Real.cos (p * Real.pi / 180) * Real.sin (w * Real.pi / 180) *
        (Real.cos (p * Real.pi / 180) * Real.sin (w * Real.pi / 180)) =
      Real.cos (p * Real.pi / 180) ^ 2 by
    have := Real.sin_sq_add_cos_sq (w * Real.pi / 180)
    nlinarith]
  rw [show sqrt (Real.cos (p * Real.pi / 180) ^ 2) = Real.cos (p * Real.pi / 180) by
    unfold sqrt
    exact Real.sqrt_sq (le_of_lt hcb)]
  rw [show Real.cos (r * Real.pi / 180) * Real.cos (p * Real.pi / 180) =
      Real.cos (p * Real.pi / 180) * Real.cos (r * Real.pi / 180) by ring]
  rw [atan2_pos_smul _ _ _ hcb, atan2_pos_smul _ _ _ hcb]
  have hbIoc : p * Real.pi / 180 ∈ Set.Ioc (-Real.pi) Real.pi := by
    obtain ⟨hl, hu⟩ := hb
    constructor
    · nlinarith
    · nlinarith
  rw [atan2_sin_cos _ ha, atan2_sin_cos _ hbIoc, atan2_sin_cos _ hc]
  rw [show r * Real.pi / 180 * 180 / Real.pi = r by
    field_simp]
  rw [show p * Real.pi / 180 * 180 / Real.pi = p by
    field_simp]
  rw [show w * Real.pi / 180 * 180 / Real.pi = w by
    field_simp]



/-- C2: for Euler vectors with angles in the principal ranges and the middle
angle outside the singular band, both round trips reproduce the input within
1e-6 componentwise (they are in fact exact over the reals): radians via
`Pose_2_TxyzRxyz ∘ TxyzRxyz_2_Pose` and degrees via
`pose_2_xyzrpw ∘ xyzrpw_2_pose`. -/
theorem claim_C2 :
    (∀ x y z rx ry rz : ℝ,
      rx ∈ Set.Ioc (-Real.pi) Real.pi →
      ry ∈ Set.Ioo (-(Real.pi/2)) (Real.pi/2) →
      rz ∈ Set.Ioc (-Real.pi) Real.pi →
      |Real.sin ry| ≤ 1 - 1e-10 →
      ∀ k : ℕ,
        |(Pose_2_TxyzRxyz (TxyzRxyz_2_Pose [x, y, z, rx, ry, rz])).getD k 0 -
          ([x, y, z, rx, ry, rz] : List ℝ).getD k 0| ≤ 1e-6) ∧
    (∀ x y z r p w : ℝ,
      r ∈ Set.Ioc (-180 : ℝ) 180 →
      p ∈ Set.Ioo (-90 : ℝ) 90 →
      w ∈ Set.Ioc (-180 : ℝ) 180 →
      |Real.sin (p * Real.pi / 180)| ≤ 1 - 1e-10 →
      ∀ k : ℕ,
        |(pose_2_xyzrpw (xyzrpw_2_pose [x, y, z, r, p, w])).getD k 0 -
          ([x, y, z, r, p, w] : List ℝ).getD k 0| ≤ 1e-6) := by
  constructor
  · intro x y z rx ry rz hrx hry hrz hband k
    rw [TxyzRxyz_roundtrip_exact x y z rx ry rz hrx hry hrz hband, sub_self, abs_zero]
    norm_num
  · intro x y z r p w hr hp hw hband k
    rw [xyzrpw_roundtrip_exact x y z r p w hr hp hw hband, sub_self, abs_zero]
    norm_num

/-- Witness for C2 at concrete inputs exercising both round trips. -/
theorem claim_C2_witness :
    ((1 : ℝ) ∈ Set.Ioc (-Real.pi) Real.pi ∧ (0 : ℝ) ∈ Set.Ioo (-(Real.pi/2)) (Real.pi/2) ∧
      |Real.sin (0 : ℝ)| ≤ 1 - 1e-10 ∧ |Real.sin ((0:ℝ) * Real.pi / 180)| ≤ 1 - 1e-10) ∧
    |(Pose_2_TxyzRxyz (TxyzRxyz_2_Pose [1, 2, 3, 1, 0, 0])).getD 3 0 -
      ([1, 2, 3, 1, 0, 0] : List ℝ).getD 3 0| ≤ 1e-6 ∧
    |(pose_2_xyzrpw (xyzrpw_2_pose [4, 5, 6, 0, 0, 90])).getD 5 0 -
      ([4, 5, 6, 0, 0, 90] : List ℝ).getD 5 0| ≤ 1e-6 := by
  have hpi := Real.pi_gt_three
  have h1 : (1 : ℝ) ∈ Set.Ioc (-Real.pi) Real.pi := ⟨by linarith, by linarith⟩
  have h0 : (0 : ℝ) ∈ Set.Ioo (-(Real.pi/2)) (Real.pi/2) := ⟨by linarith, by linarith⟩
  have hb0 : |Real.sin (0 : ℝ)| ≤ 1 - 1e-10 := by
    rw [Real.sin_zero, abs_zero]; norm_num
  have hb0' : |Real.sin ((0:ℝ) * Real.pi / 180)| ≤ 1 - 1e-10 := by
    rw [show ((0:ℝ) * Real.pi / 180) = 0 by ring, Real.sin_zero, abs_zero]; norm_num
  refine ⟨⟨h1, h0, hb0, hb0'⟩, ?_, ?_⟩
  · exact claim_C2.1 1 2 3 1 0 0 h1 h0 ⟨by linarith, by linarith⟩ hb0 3
  · exact claim_C2.2 4 5 6 0 0 90 ⟨by linarith, by linarith⟩
      ⟨by linarith, by linarith⟩ ⟨by linarith, by linarith⟩ hb0' 5

/-- In the non-singular branch the returned middle angle `ry` satisfies
`cos ry = sqrt(1 - c²)` where `c = H[0,2]`, which justifies the claim's
back-substitution formulation. -/
theorem cos_atan2_sqrt (c : ℝ) (hlo : -1 < c) (hhi : c < 1) :
    cos (atan2 c (sqrt (1 - c * c))) = sqrt (1 - c * c) := by
  have hpos : 0 < 1 - c * c := by nlinarith
  have habs : Complex.abs ⟨sqrt (1 - c * c), c⟩ = 1 := by
    rw [Complex.abs_apply, Complex.normSq_mk]
    unfold sqrt
    rw [Real.mul_self_sqrt (le_of_lt hpos)]
    rw [show (1 - c * c + c * c) = 1 by ring]
    exact Real.sqrt_one
  have hz : (⟨sqrt (1 - c * c), c⟩ : ℂ) ≠ 0 := by
    intro h0
    rw [h0] at habs
    simp at habs
  unfold cos atan2
  rw [Complex.cos_arg hz, habs]
  simp

/-- C1: `Pose_2_TxyzRxyz` follows the three-branch singularity policy: for
`H[0,2] > 1-1e-10` it returns `ry = +π/2, rx = 0, rz = atan2(H[1,0],H[1,1])`;
for `H[0,2] < -1+1e-10` it returns `ry = -π/2, rx = 0`, same `rz`; otherwise
`ry = atan2(H[0,2], +sqrt(1-H[0,2]²))` with `rx, rz` by back-substitution
through `cos ry`; the position is always taken from column 3. -/
theorem claim_C1 (H : Mat) :
    (H.get 0 2 > 1 - 1e-10 →
      Pose_2_TxyzRxyz H =
        [H.get 0 3, H.get 1 3, H.get 2 3, 0, Real.pi / 2, atan2 (H.get 1 0) (H.get 1 1)]) ∧
    (H.get 0 2 < -1 + 1e-10 →
      Pose_2_TxyzRxyz H =
        [H.get 0 3, H.get 1 3, H.get 2 3, 0, -(Real.pi / 2), atan2 (H.get 1 0) (H.get 1 1)]) ∧
    (¬ (H.get 0 2 > 1 - 1e-10) → ¬ (H.get 0 2 < -1 + 1e-10) →
      Pose_2_TxyzRxyz H =
        [H.get 0 3, H.get 1 3, H.get 2 3,
         atan2 (-(H.get 1 2) / cos (atan2 (H.get 0 2) (sqrt (1 - H.get 0 2 ^ 2))))
               (H.get 2 2 / cos (atan2 (H.get 0 2) (sqrt (1 - H.get 0 2 ^ 2)))),
         atan2 (H.get 0 2) (sqrt (1 - H.get 0 2 ^ 2)),
         atan2 (-(H.get 0 1) / cos (atan2 (H.get 0 2) (sqrt (1 - H.get 0 2 ^ 2))))
               (H.get 0 0 / cos (atan2 (H.get 0 2) (sqrt (1 - H.get 0 2 ^ 2))))]) := by
  refine ⟨?_, ?_, ?_⟩
  · intro h1
    unfold Pose_2_TxyzRxyz
    rw [if_pos h1]
  · intro h2
    have h1 : ¬ (H.get 0 2 > 1 - 1e-10) := by
      have : (-1 + 1e-10 : ℝ) ≤ 1 - 1e-10 := by norm_num
      linarith
    unfold Pose_2_TxyzRxyz
    rw [if_neg h1, if_pos h2]
  · intro h1 h2
    have hlo : -1 < H.get 0 2 := by
      push_neg at h2
      have : (-1 : ℝ) < -1 + 1e-10 := by norm_num
      linarith
    have hhi : H.get 0 2 < 1 := by
      push_neg at h1
      have : (1 - 1e-10 : ℝ) < 1 := by norm_num
      linarith
    have hsq : (1 : ℝ) - H.get 0 2 ^ 2 = 1 - H.get 0 2 * H.get 0 2 := by ring
    unfold Pose_2_TxyzRxyz
    rw [if_neg h1, if_neg h2]
    rw [hsq, cos_atan2_sqrt (H.get 0 2) hlo hhi]

/-- Witness for C1 at the identity pose (non-singular branch). -/
theorem claim_C1_witness :
    Pose_2_TxyzRxyz (Mat.mk [[1,0,0,0],[0,1,0,0],[0,0,1,0],[0,0,0,1]]) =
      [0, 0, 0,
       atan2 (-(0:ℝ) / cos (atan2 (0:ℝ) (sqrt (1 - (0:ℝ) ^ 2))))
             ((1:ℝ) / cos (atan2 (0:ℝ) (sqrt (1 - (0:ℝ) ^ 2)))),
       atan2 (0:ℝ) (sqrt (1 - (0:ℝ) ^ 2)),
       atan2 (-(0:ℝ) / cos (atan2 (0:ℝ) (sqrt (1 - (0:ℝ) ^ 2))))
             ((1:ℝ) / cos (atan2 (0:ℝ) (sqrt (1 - (0:ℝ) ^ 2))))] :=
  (claim_C1 (Mat.mk [[1,0,0,0],[0,1,0,0],[0,0,1,0],[0,0,0,1]])).2.2
    (by norm_num [Mat.get]) (by norm_num [Mat.get])




theorem sign_sqrt_sq (P : Prop) [Decidable P] (B : ℝ) (hB : 0 ≤ B) :
    ((if P then (-1:ℝ) else 1) * sqrt B / 2)^2 = B / 4 := by
  unfold sqrt
  split_ifs <;> rw [div_pow, mul_pow] <;> rw [Real.sq_sqrt hB] <;> norm_num

theorem max_diag_gt_neg_one (a b c d e f g h i : ℝ)
    (h1 : a*a + b*b + c*c = 1) (h2 : d*d + e*e + f*f = 1) (h3 : g*g + h*h + i*i = 1)
    (h4 : a*d + b*e + c*f = 0) (h5 : a*g + b*h + c*i = 0) (h6 : d*g + e*h + f*i = 0)
    (hdet : a*(e*i - f*h) - b*(d*i - f*g) + c*(d*h - e*g) = 1)
    (hae : e ≤ a) (hai : i ≤ a) : -1 < a := by
  obtain ⟨c1, c2, c3, c4, c5, c6⟩ := rot_cols_of_rows a b c d e f g h i h1 h2 h3 h4 h5 h6
  clear c4 c5 c6 h4 h5 h6 c2 c3
  by_contra hcon
  push_neg at hcon
  have hage : -1 ≤ a := by nlinarith [sq_nonneg (a + 1), sq_nonneg d, sq_nonneg g]
  have ha : a = -1 := le_antisymm hcon hage
  subst ha
  have hd : d = 0 := by
    have h0 : d * d = 0 := le_antisymm (by nlinarith [sq_nonneg g]) (mul_self_nonneg d)
    exact mul_self_eq_zero.mp h0
  have hg : g = 0 := by
    have h0 : g * g = 0 := le_antisymm (by nlinarith [sq_nonneg d]) (mul_self_nonneg g)
    exact mul_self_eq_zero.mp h0
  have hb : b = 0 := by
    have h0 : b * b = 0 := le_antisymm (by nlinarith [sq_nonneg c]) (mul_self_nonneg b)
    exact mul_self_eq_zero.mp h0
  have hc : c = 0 := by
    have h0 : c * c = 0 := le_antisymm (by nlinarith [sq_nonneg b]) (mul_self_nonneg c)
    exact mul_self_eq_zero.mp h0
  rw [hd] at h2
  have hege : -1 ≤ e := by nlinarith [sq_nonneg (e + 1), sq_nonneg f]
  have he : e = -1 := le_antisymm hae hege
  subst he
  have hf : f = 0 := by
    have h0 : f * f = 0 := le_antisymm (by nlinarith) (mul_self_nonneg f)
    exact mul_self_eq_zero.mp h0
  rw [hg] at h3
  have hige : -1 ≤ i := by nlinarith [sq_nonneg (i + 1), sq_nonneg h]
  have hi2 : i = -1 := le_antisymm hai hige
  subst hi2
  have hh : h = 0 := by
    have h0 : h * h = 0 := le_antisymm (by nlinarith) (mul_self_nonneg h)
    exact mul_self_eq_zero.mp h0
  rw [hb, hc, hd, hf, hg, hh] at hdet
  norm_num at hdet

theorem p2q_branch2_k0 (a b c d e f g h i x y z : ℝ)
    (hb1 : ¬ (min (max ((a + e + i - 1) * 0.5) (-1)) 1 > 1 - 1e-9))
    (hb2 : min (max ((a + e + i - 1) * 0.5) (-1)) 1 < -1 + 1e-7)
    (hk0 : a ≥ e ∧ a ≥ i) :
    pose_2_quaternion (Mat.mk [[a,b,c,x],[d,e,f,y],[g,h,i,z],[0,0,0,1]]) =
      [0, (a + 1) / sqrtA (2 * (1 + a)), d / sqrtA (2 * (1 + a)), g / sqrtA (2 * (1 + a))] := by
  unfold pose_2_quaternion
  simp only [show (Mat.mk [[a,b,c,x],[d,e,f,y],[g,h,i,z],[0,0,0,1]]).get 0 0 = a from rfl,
    show (Mat.mk [[a,b,c,x],[d,e,f,y],[g,h,i,z],[0,0,0,1]]).get 1 1 = e from rfl,
    show (Mat.mk [[a,b,c,x],[d,e,f,y],[g,h,i,z],[0,0,0,1]]).get 2 2 = i from rfl,
    show (Mat.mk [[a,b,c,x],[d,e,f,y],[g,h,i,z],[0,0,0,1]]).get 2 1 = h from rfl,
    show (Mat.mk [[a,b,c,x],[d,e,f,y],[g,h,i,z],[0,0,0,1]]).get 1 2 = f from rfl,
    show (Mat.mk [[a,b,c,x],[d,e,f,y],[g,h,i,z],[0,0,0,1]]).get 0 2 = c from rfl,
    show (Mat.mk [[a,b,c,x],[d,e,f,y],[g,h,i,z],[0,0,0,1]]).get 2 0 = g from rfl,
    show (Mat.mk [[a,b,c,x],[d,e,f,y],[g,h,i,z],[0,0,0,1]]).get 1 0 = d from rfl,
    show (Mat.mk [[a,b,c,x],[d,e,f,y],[g,h,i,z],[0,0,0,1]]).get 0 1 = b from rfl]
  rw [if_neg hb1, if_pos hb2]
  simp only [show ([a, e, i] : List ℝ).getD 0 0 = a from rfl,
    show ([a, e, i] : List ℝ).getD 1 0 = e from rfl,
    show ([a, e, i] : List ℝ).getD 2 0 = i from rfl]
  rw [if_pos hk0]
  norm_num
  exact ⟨rfl, rfl, rfl⟩

theorem p2q_branch2_k1 (a b c d e f g h i x y z : ℝ)
    (hb1 : ¬ (min (max ((a + e + i - 1) * 0.5) (-1)) 1 > 1 - 1e-9))
    (hb2 : min (max ((a + e + i - 1) * 0.5) (-1)) 1 < -1 + 1e-7)
    (hk0 : ¬ (a ≥ e ∧ a ≥ i)) (hk1 : e ≥ i) :
    pose_2_quaternion (Mat.mk [[a,b,c,x],[d,e,f,y],[g,h,i,z],[0,0,0,1]]) =
      [0, b / sqrtA (2 * (1 + e)), (e + 1) / sqrtA (2 * (1 + e)), h / sqrtA (2 * (1 + e))] := by
  unfold pose_2_quaternion
  simp only [show (Mat.mk [[a,b,c,x],[d,e,f,y],[g,h,i,z],[0,0,0,1]]).get 0 0 = a from rfl,
    show (Mat.mk [[a,b,c,x],[d,e,f,y],[g,h,i,z],[0,0,0,1]]).get 1 1 = e from rfl,
    show (Mat.mk [[a,b,c,x],[d,e,f,y],[g,h,i,z],[0,0,0,1]]).get 2 2 = i from rfl,
    show (Mat.mk [[a,b,c,x],[d,e,f,y],[g,h,i,z],[0,0,0,1]]).get 2 1 = h from rfl,
    show (Mat.mk [[a,b,c,x],[d,e,f,y],[g,h,i,z],[0,0,0,1]]).get 1 2 = f from rfl,
    show (Mat.mk [[a,b,c,x],[d,e,f,y],[g,h,i,z],[0,0,0,1]]).get 0 2 = c from rfl,
    show (Mat.mk [[a,b,c,x],[d,e,f,y],[g,h,i,z],[0,0,0,1]]).get 2 0 = g from rfl,
    show (Mat.mk [[a,b,c,x],[d,e,f,y],[g,h,i,z],[0,0,0,1]]).get 1 0 = d from rfl,
    show (Mat.mk [[a,b,c,x],[d,e,f,y],[g,h,i,z],[0,0,0,1]]).get 0 1 = b from rfl]
  rw [if_neg hb1, if_pos hb2]
  simp only [show ([a, e, i] : List ℝ).getD 0 0 = a from rfl,
    show ([a, e, i] : List ℝ).getD 1 0 = e from rfl,
    show ([a, e, i] : List ℝ).getD 2 0 = i from rfl]
  rw [if_neg hk0, if_pos hk1]
  norm_num
  exact ⟨rfl, rfl, rfl⟩

theorem p2q_branch2_k2 (a b c d e f g h i x y z : ℝ)
    (hb1 : ¬ (min (max ((a + e + i - 1) * 0.5) (-1)) 1 > 1 - 1e-9))
    (hb2 : min (max ((a + e + i - 1) * 0.5) (-1)) 1 < -1 + 1e-7)
    (hk0 : ¬ (a ≥ e ∧ a ≥ i)) (hk1 : ¬ (e ≥ i)) :
    pose_2_quaternion (Mat.mk [[a,b,c,x],[d,e,f,y],[g,h,i,z],[0,0,0,1]]) =
      [0, c / sqrtA (2 * (1 + i)), f / sqrtA (2 * (1 + i)), (i + 1) / sqrtA (2 * (1 + i))] := by
  unfold pose_2_quaternion
  simp only [show (Mat.mk [[a,b,c,x],[d,e,f,y],[g,h,i,z],[0,0,0,1]]).get 0 0 = a from rfl,
    show (Mat.mk [[a,b,c,x],[d,e,f,y],[g,h,i,z],[0,0,0,1]]).get 1 1 = e from rfl,
    show (Mat.mk [[a,b,c,x],[d,e,f,y],[g,h,i,z],[0,0,0,1]]).get 2 2 = i from rfl,
    show (Mat.mk [[a,b,c,x],[d,e,f,y],[g,h,i,z],[0,0,0,1]]).get 2 1 = h from rfl,
    show (Mat.mk [[a,b,c,x],[d,e,f,y],[g,h,i,z],[0,0,0,1]]).get 1 2 = f from rfl,
    show (Mat.mk [[a,b,c,x],[d,e,f,y],[g,h,i,z],[0,0,0,1]]).get 0 2 = c from rfl,
    show (Mat.mk [[a,b,c,x],[d,e,f,y],[g,h,i,z],[0,0,0,1]]).get 2 0 = g from rfl,
    show (Mat.mk [[a,b,c,x],[d,e,f,y],[g,h,i,z],[0,0,0,1]]).get 1 0 = d from rfl,
    show (Mat.mk [[a,b,c,x],[d,e,f,y],[g,h,i,z],[0,0,0,1]]).get 0 1 = b from rfl]
  rw [if_neg hb1, if_pos hb2]
  simp only [show ([a, e, i] : List ℝ).getD 0 0 = a from rfl,
    show ([a, e, i] : List ℝ).getD 1 0 = e from rfl,
    show ([a, e, i] : List ℝ).getD 2 0 = i from rfl]
  rw [if_neg hk0, if_neg hk1]
  norm_num
  exact ⟨rfl, rfl, rfl⟩

theorem p2q_branch3 (a b c d e f g h i x y z : ℝ)
    (hb1 : ¬ (min (max ((a + e + i - 1) * 0.5) (-1)) 1 > 1 - 1e-9))
    (hb2 : ¬ (min (max ((a + e + i - 1) * 0.5) (-1)) 1 < -1 + 1e-7)) :
    pose_2_quaternion (Mat.mk [[a,b,c,x],[d,e,f,y],[g,h,i,z],[0,0,0,1]]) =
      [sqrt (max (a + e + i + 1) 0) / 2,
       (if h - f < 0 then (-1:ℝ) else 1) * sqrt (max (a - e - i + 1) 0) / 2,
       (if c - g < 0 then (-1:ℝ) else 1) * sqrt (max (-a + e - i + 1) 0) / 2,
       (if d - b < 0 then (-1:ℝ) else 1) * sqrt (max (-a - e + i + 1) 0) / 2] := by
  unfold pose_2_quaternion
  simp only [show (Mat.mk [[a,b,c,x],[d,e,f,y],[g,h,i,z],[0,0,0,1]]).get 0 0 = a from rfl,
    show (Mat.mk [[a,b,c,x],[d,e,f,y],[g,h,i,z],[0,0,0,1]]).get 1 1 = e from rfl,
    show (Mat.mk [[a,b,c,x],[d,e,f,y],[g,h,i,z],[0,0,0,1]]).get 2 2 = i from rfl,
    show (Mat.mk [[a,b,c,x],[d,e,f,y],[g,h,i,z],[0,0,0,1]]).get 2 1 = h from rfl,
    show (Mat.mk [[a,b,c,x],[d,e,f,y],[g,h,i,z],[0,0,0,1]]).get 1 2 = f from rfl,
    show (Mat.mk [[a,b,c,x],[d,e,f,y],[g,h,i,z],[0,0,0,1]]).get 0 2 = c from rfl,
    show (Mat.mk [[a,b,c,x],[d,e,f,y],[g,h,i,z],[0,0,0,1]]).get 2 0 = g from rfl,
    show (Mat.mk [[a,b,c,x],[d,e,f,y],[g,h,i,z],[0,0,0,1]]).get 1 0 = d from rfl,
    show (Mat.mk [[a,b,c,x],[d,e,f,y],[g,h,i,z],[0,0,0,1]]).get 0 1 = b from rfl]
  rw [if_neg hb1, if_neg hb2]



set_option maxHeartbeats 2000000 in
/-- C3 (amended): for every pose whose rotation block is exactly orthonormal
with determinant 1 (a proper rotation), `pose_2_quaternion` returns an
exactly unit quaternion, in all three branches of the algorithm; with
determinant -1 (still accepted by `isHomogeneous`) or under the 1e-4
tolerance alone the 1e-9 bound fails, see the counterexample. -/
theorem claim_C3 (a b c d e f g h i x y z : ℝ)
    (h1 : a*a + b*b + c*c = 1) (h2 : d*d + e*e + f*f = 1) (h3 : g*g + h*h + i*i = 1)
    (h4 : a*d + b*e + c*f = 0) (h5 : a*g + b*h + c*i = 0) (h6 : d*g + e*h + f*i = 0)
    (hdet : a*(e*i - f*h) - b*(d*i - f*g) + c*(d*h - e*g) = 1) :
    qnorm4 (pose_2_quaternion (Mat.mk [[a,b,c,x],[d,e,f,y],[g,h,i,z],[0,0,0,1]])) = 1 := by
  obtain ⟨c1, c2, c3, c4, c5, c6⟩ := rot_cols_of_rows a b c d e f g h i h1 h2 h3 h4 h5 h6
  obtain ⟨k00, k01, k02, k10, k11, k12, k20, k21, k22⟩ :=
    rot_cofactors a b c d e f g h i h1 h2 h3 h4 h5 h6 hdet
  by_cases hb1 : min (max ((a + e + i - 1) * 0.5) (-1)) 1 > 1 - 1e-9
  · have hred : pose_2_quaternion (Mat.mk [[a,b,c,x],[d,e,f,y],[g,h,i,z],[0,0,0,1]]) =
        [1, 0, 0, 0] := by
      unfold pose_2_quaternion
      simp only [show (Mat.mk [[a,b,c,x],[d,e,f,y],[g,h,i,z],[0,0,0,1]]).get 0 0 = a from rfl,
        show (Mat.mk [[a,b,c,x],[d,e,f,y],[g,h,i,z],[0,0,0,1]]).get 1 1 = e from rfl,
        show (Mat.mk [[a,b,c,x],[d,e,f,y],[g,h,i,z],[0,0,0,1]]).get 2 2 = i from rfl]
      rw [if_pos hb1]
    rw [hred]
    unfold qnorm4
    norm_num
  by_cases hb2 : min (max ((a + e + i - 1) * 0.5) (-1)) 1 < -1 + 1e-7
  · -- 180-degree branch
    by_cases hk0 : a ≥ e ∧ a ≥ i
    · rw [p2q_branch2_k0 a b c d e f g h i x y z hb1 hb2 hk0]
      have hapos : -1 < a :=
        max_diag_gt_neg_one a b c d e f g h i h1 h2 h3 h4 h5 h6 hdet hk0.1 hk0.2
      have hpos : (0:ℝ) < 2 * (1 + a) := by linarith
      have hsA : sqrtA (2 * (1 + a)) = Real.sqrt (2 * (1 + a)) := by
        unfold sqrtA sqrt
        rw [if_neg (not_le.mpr hpos)]
      have hsq : (sqrtA (2 * (1 + a)))^2 = 2 * (1 + a) := by
        rw [hsA]
        exact Real.sq_sqrt (le_of_lt hpos)
      have hne : sqrtA (2 * (1 + a)) ≠ 0 := by
        rw [hsA]
        exact ne_of_gt (Real.sqrt_pos.mpr hpos)
      unfold qnorm4
      show Real.sqrt ((0:ℝ)^2 + ((a + 1) / sqrtA (2 * (1 + a)))^2 +
        (d / sqrtA (2 * (1 + a)))^2 + (g / sqrtA (2 * (1 + a)))^2) = 1
      rw [show (0:ℝ)^2 + ((a + 1) / sqrtA (2 * (1 + a)))^2 +
          (d / sqrtA (2 * (1 + a)))^2 + (g / sqrtA (2 * (1 + a)))^2 = 1 from by
        rw [show (0:ℝ)^2 + ((a + 1) / sqrtA (2 * (1 + a)))^2 +
            (d / sqrtA (2 * (1 + a)))^2 + (g / sqrtA (2 * (1 + a)))^2 =
            ((a + 1)^2 + d^2 + g^2) / (sqrtA (2 * (1 + a)))^2 from by ring,
          hsq]
        rw [div_eq_one_iff_eq (by linarith : (2:ℝ) * (1 + a) ≠ 0)]
        linear_combination c1]
      exact Real.sqrt_one
    by_cases hk1 : e ≥ i
    · rw [p2q_branch2_k1 a b c d e f g h i x y z hb1 hb2 hk0 hk1]
      have hale : a ≤ e := by
        rcases not_and_or.mp hk0 with h' | h'
        · linarith [not_le.mp h']
        · linarith [not_le.mp h']
      have hepos : -1 < e :=
        max_diag_gt_neg_one e d f b a c h g i
          (by linear_combination h2) (by linear_combination h1) (by linear_combination h3)
          (by linear_combination h4) (by linear_combination h6) (by linear_combination h5)
          (by linear_combination hdet) hale hk1
      have hpos : (0:ℝ) < 2 * (1 + e) := by linarith
      have hsA : sqrtA (2 * (1 + e)) = Real.sqrt (2 * (1 + e)) := by
        unfold sqrtA sqrt
        rw [if_neg (not_le.mpr hpos)]
      have hsq : (sqrtA (2 * (1 + e)))^2 = 2 * (1 + e) := by
        rw [hsA]
        exact Real.sq_sqrt (le_of_lt hpos)
      have hne : sqrtA (2 * (1 + e)) ≠ 0 := by
        rw [hsA]
        exact ne_of_gt (Real.sqrt_pos.mpr hpos)
      unfold qnorm4
      show Real.sqrt ((0:ℝ)^2 + (b / sqrtA (2 * (1 + e)))^2 +
        ((e + 1) / sqrtA (2 * (1 + e)))^2 + (h / sqrtA (2 * (1 + e)))^2) = 1
      rw [show (0:ℝ)^2 + (b / sqrtA (2 * (1 + e)))^2 +
          ((e + 1) / sqrtA (2 * (1 + e)))^2 + (h / sqrtA (2 * (1 + e)))^2 = 1 from by
        rw [show (0:ℝ)^2 + (b / sqrtA (2 * (1 + e)))^2 +
            ((e + 1) / sqrtA (2 * (1 + e)))^2 + (h / sqrtA (2 * (1 + e)))^2 =
            (b^2 + (e + 1)^2 + h^2) / (sqrtA (2 * (1 + e)))^2 from by ring,
          hsq]
        rw [div_eq_one_iff_eq (by linarith : (2:ℝ) * (1 + e) ≠ 0)]
        linear_combination c2]
      exact Real.sqrt_one
    · rw [p2q_branch2_k2 a b c d e f g h i x y z hb1 hb2 hk0 hk1]
      have heli : e ≤ i := le_of_lt (not_le.mp hk1)
      have hali : a ≤ i := by
        rcases not_and_or.mp hk0 with h' | h'
        · linarith [not_le.mp h']
        · linarith [not_le.mp h']
      have hipos : -1 < i :=
        max_diag_gt_neg_one i h g f e d c b a
          (by linear_combination h3) (by linear_combination h2) (by linear_combination h1)
          (by linear_combination h6) (by linear_combination h5) (by linear_combination h4)
          (by linear_combination hdet) heli hali
      have hpos : (0:ℝ) < 2 * (1 + i) := by linarith
      have hsA : sqrtA (2 * (1 + i)) = Real.sqrt (2 * (1 + i)) := by
        unfold sqrtA sqrt
        rw [if_neg (not_le.mpr hpos)]
      have hsq : (sqrtA (2 * (1 + i)))^2 = 2 * (1 + i) := by
        rw [hsA]
        exact Real.sq_sqrt (le_of_lt hpos)
      have hne : sqrtA (2 * (1 + i)) ≠ 0 := by
        rw [hsA]
        exact ne_of_gt (Real.sqrt_pos.mpr hpos)
      unfold qnorm4
      show Real.sqrt ((0:ℝ)^2 + (c / sqrtA (2 * (1 + i)))^2 +
        (f / sqrtA (2 * (1 + i)))^2 + ((i + 1) / sqrtA (2 * (1 + i)))^2) = 1
      rw [show (0:ℝ)^2 + (c / sqrtA (2 * (1 + i)))^2 +
          (f / sqrtA (2 * (1 + i)))^2 + ((i + 1) / sqrtA (2 * (1 + i)))^2 = 1 from by
        rw [show (0:ℝ)^2 + (c / sqrtA (2 * (1 + i)))^2 +
            (f / sqrtA (2 * (1 + i)))^2 + ((i + 1) / sqrtA (2 * (1 + i)))^2 =
            (c^2 + f^2 + (i + 1)^2) / (sqrtA (2 * (1 + i)))^2 from by ring,
          hsq]
        rw [div_eq_one_iff_eq (by linarith : (2:ℝ) * (1 + i) ≠ 0)]
        linear_combination c3]
      exact Real.sqrt_one
  · -- general branch
    rw [p2q_branch3 a b c d e f g h i x y z hb1 hb2]
    have hu : -1 + 1e-7 ≤ (a + e + i - 1) * 0.5 := by
      push_neg at hb2
      have hmin := (le_min_iff.mp hb2).1
      rcases le_max_iff.mp hmin with h' | h'
      · exact h'
      · norm_num at h'
    have ht : (0:ℝ) < 1 + (a + e + i) := by linarith
    have id2 : (1 + a - e - i) * (1 + (a + e + i)) = (h - f)^2 := by
      linear_combination c1 - h2 - h3 - 2*k00
    have id3 : (1 - a + e - i) * (1 + (a + e + i)) = (c - g)^2 := by
      linear_combination c2 - h1 - h3 - 2*k11
    have id4 : (1 - a - e + i) * (1 + (a + e + i)) = (d - b)^2 := by
      linear_combination c3 - h1 - h2 - 2*k22
    have hA : (0:ℝ) ≤ a + e + i + 1 := by linarith
    have hB : (0:ℝ) ≤ a - e - i + 1 := by nlinarith [sq_nonneg (h - f)]
    have hC : (0:ℝ) ≤ -a + e - i + 1 := by nlinarith [sq_nonneg (c - g)]
    have hD : (0:ℝ) ≤ -a - e + i + 1 := by nlinarith [sq_nonneg (d - b)]
    rw [max_eq_left hA, max_eq_left hB, max_eq_left hC, max_eq_left hD]
    have e1 : (sqrt (a + e + i + 1) / 2)^2 = (a + e + i + 1) / 4 := by
      unfold sqrt
      rw [div_pow, Real.sq_sqrt hA]
      norm_num
    have e2 := sign_sqrt_sq (h - f < 0) (a - e - i + 1) hB
    have e3 := sign_sqrt_sq (c - g < 0) (-a + e - i + 1) hC
    have e4 := sign_sqrt_sq (d - b < 0) (-a - e + i + 1) hD
    unfold qnorm4
    show Real.sqrt ((sqrt (a + e + i + 1) / 2)^2 +
      ((if h - f < 0 then (-1:ℝ) else 1) * sqrt (a - e - i + 1) / 2)^2 +
      ((if c - g < 0 then (-1:ℝ) else 1) * sqrt (-a + e - i + 1) / 2)^2 +
      ((if d - b < 0 then (-1:ℝ) else 1) * sqrt (-a - e + i + 1) / 2)^2) = 1
    rw [e1, e2, e3, e4]
    rw [show (a + e + i + 1) / 4 + (a - e - i + 1) / 4 + (-a + e - i + 1) / 4 +
        (-a - e + i + 1) / 4 = 1 from by ring]
    exact Real.sqrt_one



/-- C3 counterexample: the reflection `diag(1,1,-1)` is exactly orthonormal,
so its pose passes `isHomogeneous`, yet the general branch returns
`[√2/2, √2/2, √2/2, 0]` whose norm is `√(3/2) ≈ 1.22`, not 1 ± 1e-9. -/
theorem claim_C3_counterexample :
    (Mat.fromRows [[1,0,0,0],[0,1,0,0],[0,0,-1,0],[0,0,0,1]]).isHomogeneous ∧
    |qnorm4 (pose_2_quaternion (Mat.fromRows [[1,0,0,0],[0,1,0,0],[0,0,-1,0],[0,0,0,1]])) - 1|
      > 1e-9 := by
  constructor
  · exact isHomogeneous_of_orthonormal 1 0 0 0 1 0 0 0 (-1) 0 0 0 0 0 0 1 (by norm_num)
      (by norm_num) (by norm_num) (by norm_num) (by norm_num) (by norm_num)
  · rw [show Mat.fromRows [[(1:ℝ),0,0,0],[0,1,0,0],[0,0,-1,0],[0,0,0,1]] =
      Mat.mk [[1,0,0,0],[0,1,0,0],[0,0,-1,0],[0,0,0,1]] from rfl]
    rw [p2q_branch3 1 0 0 0 1 0 0 0 (-1) 0 0 0 (by norm_num) (by norm_num)]
    norm_num
    have hq : qnorm4 [sqrt 2 / 2, sqrt 2 / 2, sqrt 2 / 2, sqrt 0 / 2] = Real.sqrt (3/2) := by
      unfold qnorm4 sqrt
      rw [Real.sqrt_zero]
      congr 1
      have hs : (Real.sqrt 2)^2 = 2 := Real.sq_sqrt (by norm_num)
      show (Real.sqrt 2 / 2)^2 + (Real.sqrt 2 / 2)^2 + (Real.sqrt 2 / 2)^2 + ((0:ℝ)/2)^2 = 3/2
      linear_combination (3/4) * hs
    rw [hq]
    have hge : (1.2:ℝ) ≤ Real.sqrt (3/2) := by
      rw [Real.le_sqrt (by norm_num) (by norm_num)]
      norm_num
    rw [abs_of_nonneg (by linarith)]
    linarith

/-- Witness for C3 at the identity rotation. -/
theorem claim_C3_witness :
    qnorm4 (pose_2_quaternion (Mat.mk [[1,0,0,0],[0,1,0,0],[0,0,1,0],[0,0,0,1]])) = 1 :=
  claim_C3 1 0 0 0 1 0 0 0 1 0 0 0 (by norm_num) (by norm_num) (by norm_num) (by norm_num)
    (by norm_num) (by norm_num) (by norm_num)

/-- C4: evaluation of the source at the failing input `qin = [2,0,0,0]`.
The source binds `q = qin` (aliasing, not a copy) and divides the list's
elements in place, so after the call the caller's list holds the normalised
values `[1,0,0,0]`, not the original `[2,0,0,0]` — the claim's frame
condition fails, although the returned pose's translation column is indeed
`[0,0,0,1]`. -/
theorem claim_C4 :
    (quaternion_2_pose [2, 0, 0, 0]).2 = [1, 0, 0, 0] ∧
    (quaternion_2_pose [2, 0, 0, 0]).2 ≠ [2, 0, 0, 0] ∧
    ((quaternion_2_pose [2, 0, 0, 0]).1.subMat 0 4 3 4 = Mat.fromRows [[0], [0], [0], [1]]) := by
  have hs : sqrt ((2:ℝ) * 2) = 2 := by
    rw [show ((2:ℝ) * 2) = 2^2 by norm_num]
    exact Real.sqrt_sq (by norm_num)
  refine ⟨?_, ?_, ?_⟩
  · simp [quaternion_2_pose, hs]
  · simp [quaternion_2_pose, hs]
  · simp [quaternion_2_pose, hs, Mat.subMat, Mat.get, Mat.fromRows, List.range_succ]

/-- A rotation-free UR target `[c,0,0,0,0,0]` converts to a pure X
translation. -/
theorem UR_2_Pose_pure_x (c : ℝ) :
    UR_2_Pose [c, 0, 0, 0, 0, 0] = Mat.mk [[1,0,0,c],[0,1,0,0],[0,0,1,0],[0,0,0,1]] := by
  unfold UR_2_Pose
  norm_num
  rw [show norm [(0:ℝ), 0, 0] = 0 by
    unfold norm sqrt
    norm_num]
  rw [if_pos rfl]
  norm_num [cos, quaternion_2_pose, Mat.setPos, Mat.setElem, Mat.setRange, Mat.get,
    Mat.fromRows, List.range_succ]

theorem eye4_matmul_translx (c : ℝ) :
    (eye 4).matmul (Mat.mk [[1,0,0,c],[0,1,0,0],[0,0,1,0],[0,0,0,1]]) = transl c 0 0 := by
  norm_num [eye, transl, Mat.matmul, Mat.tr, Mat.get, Mat.fromRows, Mat.nrows, Mat.ncols,
    List.range_succ]

theorem Pose_2_UR_translx :
    Pose_2_UR (Mat.mk [[1,0,0,10],[0,1,0,0],[0,0,1,0],[0,0,0,1]]) = [10, 0, 0, 0, 0, 0] := by
  unfold Pose_2_UR acos
  norm_num [Mat.get]

theorem eye4_invH_ok : (eye 4).invH = .ok ((eye 4).invHval) := by
  have hhom : (eye 4).isHomogeneous :=
    isHomogeneous_of_orthonormal 1 0 0 0 1 0 0 0 1 0 0 0 0 0 0 1 (by norm_num) (by norm_num)
      (by norm_num) (by norm_num) (by norm_num) (by norm_num)
  unfold Mat.invH
  rw [if_pos hhom]

theorem eye4_mulE_transl10 : ((eye 4).invHval).mulE (transl 10 0 0) =
    .ok (Mat.mk [[1,0,0,10],[0,1,0,0],[0,0,1,0],[0,0,0,1]]) := by
  have hval : (eye 4).invHval = Mat.mk [[1,0,0,0],[0,1,0,0],[0,0,1,0],[0,0,0,1]] := by
    norm_num [eye, Mat.invHval, Mat.setRange, Mat.subMat, Mat.matmul, Mat.smul, Mat.tr,
      Mat.get, Mat.fromRows, Mat.nrows, Mat.ncols, List.range_succ]
  rw [hval]
  unfold Mat.mulE
  rw [if_neg (by norm_num [Mat.ncols, Mat.nrows, transl, Mat.fromRows])]
  norm_num [Mat.matmul, Mat.tr, Mat.get, transl, Mat.fromRows, Mat.nrows, Mat.ncols,
    List.range_succ]

theorem norm_pos_transl10 :
    norm (Mat.mk [[1,0,0,10],[0,1,0,0],[0,0,1,0],[0,0,0,1]]).Pos = 10 := by
  unfold norm Mat.Pos sqrt
  norm_num [Mat.get]
  rw [show (100 : ℝ) = 10^2 by norm_num]
  exact Real.sqrt_sq (by norm_num)

/-- The two outcomes of `Pose_Split` once the relative transform has been
obtained: a single-element list `[pose2]` when the direct distance is within
`delta_mm`, otherwise the `steps - 1` intermediate poses, `steps =
max(1, floor(distance/delta_mm))`, produced by uniformly scaling the UR
rotation-vector form of the delta (endpoints excluded). -/
theorem Pose_Split_cases (pose1 pose2 inv1 pose_delta : Mat) (delta_mm : ℝ)
    (h1 : pose1.invH = .ok inv1) (h2 : inv1.mulE pose2 = .ok pose_delta) :
    (norm pose_delta.Pos ≤ delta_mm → Pose_Split pose1 pose2 delta_mm = .ok [pose2]) ∧
    (¬ (norm pose_delta.Pos ≤ delta_mm) →
      Pose_Split pose1 pose2 delta_mm = .ok
        ((List.range ((max 1 ⌊norm pose_delta.Pos / delta_mm⌋ - 1).toNat)).map fun i =>
          pose1.matmul (UR_2_Pose
            [(Pose_2_UR pose_delta).getD 0 0 /
                ((max 1 ⌊norm pose_delta.Pos / delta_mm⌋ : ℤ) : ℝ) * ((i : ℝ) + 1),
             (Pose_2_UR pose_delta).getD 1 0 /
                ((max 1 ⌊norm pose_delta.Pos / delta_mm⌋ : ℤ) : ℝ) * ((i : ℝ) + 1),
             (Pose_2_UR pose_delta).getD 2 0 /
                ((max 1 ⌊norm pose_delta.Pos / delta_mm⌋ : ℤ) : ℝ) * ((i : ℝ) + 1),
             (Pose_2_UR pose_delta).getD 3 0 /
                ((max 1 ⌊norm pose_delta.Pos / delta_mm⌋ : ℤ) : ℝ) * ((i : ℝ) + 1),
             (Pose_2_UR pose_delta).getD 4 0 /
                ((max 1 ⌊norm pose_delta.Pos / delta_mm⌋ : ℤ) : ℝ) * ((i : ℝ) + 1),
             (Pose_2_UR pose_delta).getD 5 0 /
                ((max 1 ⌊norm pose_delta.Pos / delta_mm⌋ : ℤ) : ℝ) * ((i : ℝ) + 1)]))) := by
  constructor
  · intro hle
    unfold Pose_Split
    rw [h1]
    simp only
    rw [h2]
    simp only
    rw [if_pos hle]
  · intro hgt
    unfold Pose_Split
    rw [h1]
    simp only
    rw [h2]
    simp only
    rw [if_neg hgt]

theorem Pose_Split_scenario :
    Pose_Split (eye 4) (transl 10 0 0) 1 =
      .ok ((List.range 9).map fun i => transl ((i : ℝ) + 1) 0 0) := by
  have hgen := (Pose_Split_cases (eye 4) (transl 10 0 0) _ _ 1 eye4_invH_ok eye4_mulE_transl10).2
  rw [norm_pos_transl10] at hgen
  rw [Pose_2_UR_translx] at hgen
  have hr := hgen (by norm_num)
  rw [hr]
  have hfloor : (⌊(10 : ℝ) / 1⌋ : ℤ) = 10 := by norm_num
  rw [hfloor]
  norm_num
  apply List.map_congr_left
  intro i hi
  rw [UR_2_Pose_pure_x]
  rw [eye4_matmul_translx]

/-- C8: once the relative transform `invH(pose1) * pose2` is available,
`Pose_Split` returns `[pose2]` when the distance is within `delta_mm` and
otherwise exactly `max(1, floor(distance/delta_mm)) - 1` intermediate poses
obtained by uniformly scaling the UR rotation-vector form of the delta
(endpoints excluded); concretely, `Pose_Split(eye(4), transl(10,0,0), 1.0)`
returns the nine poses `transl(1,0,0) … transl(9,0,0)`, each 1 mm further
along X. -/
theorem claim_C8 :
    (∀ (pose1 pose2 inv1 pose_delta : Mat) (delta_mm : ℝ),
      pose1.invH = .ok inv1 → inv1.mulE pose2 = .ok pose_delta →
      (norm pose_delta.Pos ≤ delta_mm → Pose_Split pose1 pose2 delta_mm = .ok [pose2]) ∧
      (¬ (norm pose_delta.Pos ≤ delta_mm) →
        Pose_Split pose1 pose2 delta_mm = .ok
          ((List.range ((max 1 ⌊norm pose_delta.Pos / delta_mm⌋ - 1).toNat)).map fun i =>
            pose1.matmul (UR_2_Pose
              [(Pose_2_UR pose_delta).getD 0 0 /
                  ((max 1 ⌊norm pose_delta.Pos / delta_mm⌋ : ℤ) : ℝ) * ((i : ℝ) + 1),
               (Pose_2_UR pose_delta).getD 1 0 /
                  ((max 1 ⌊norm pose_delta.Pos / delta_mm⌋ : ℤ) : ℝ) * ((i : ℝ) + 1),
               (Pose_2_UR pose_delta).getD 2 0 /
                  ((max 1 ⌊norm pose_delta.Pos / delta_mm⌋ : ℤ) : ℝ) * ((i : ℝ) + 1),
               (Pose_2_UR pose_delta).getD 3 0 /
                  ((max 1 ⌊norm pose_delta.Pos / delta_mm⌋ : ℤ) : ℝ) * ((i : ℝ) + 1),
               (Pose_2_UR pose_delta).getD 4 0 /
                  ((max 1 ⌊norm pose_delta.Pos / delta_mm⌋ : ℤ) : ℝ) * ((i : ℝ) + 1),
               (Pose_2_UR pose_delta).getD 5 0 /
                  ((max 1 ⌊norm pose_delta.Pos / delta_mm⌋ : ℤ) : ℝ) * ((i : ℝ) + 1)])))) ∧
    Pose_Split (eye 4) (transl 10 0 0) 1 =
      .ok ((List.range 9).map fun i => transl ((i : ℝ) + 1) 0 0) :=
  ⟨fun pose1 pose2 inv1 pose_delta delta_mm h1 h2 =>
    Pose_Split_cases pose1 pose2 inv1 pose_delta delta_mm h1 h2,
   Pose_Split_scenario⟩

/-- Witness for C8: with a generous step of 20 mm the split from the
identity to `transl(10,0,0)` returns the single-element list. -/
theorem claim_C8_witness :
    Pose_Split (eye 4) (transl 10 0 0) 20 = .ok [transl 10 0 0] :=
  (claim_C8.1 (eye 4) (transl 10 0 0) ((eye 4).invHval)
    (Mat.mk [[1,0,0,10],[0,1,0,0],[0,0,1,0],[0,0,0,1]]) 20 eye4_invH_ok eye4_mulE_transl10).1
    (by rw [norm_pos_transl10]; norm_num)

/-- C9: the `Mat` constructor accepts any nonempty list of row lists,
including jagged input; the result has one row per supplied row, every row
has exactly `n` entries where `n` is the maximum supplied row length, and
each result row is the corresponding input row extended by trailing zeros
(so no row is ever truncated). -/
theorem claim_C9 (rows : List (List ℝ)) (hne : rows ≠ []) :
    ((Mat.fromRows rows).rows.length = rows.length) ∧
    (∀ r ∈ (Mat.fromRows rows).rows,
      r.length = (rows.map List.length).foldr max 0) ∧
    List.Forall₂
      (fun r r' =>
        r' = r ++ List.replicate ((rows.map List.length).foldr max 0 - r.length) (0 : ℝ))
      rows (Mat.fromRows rows).rows := by
  match rows with
  | [] => exact absurd rfl hne
  | r0 :: rest =>
    by_cases hj : rest.any (fun r => r.length ≠ r0.length)
    · rw [Mat.fromRows, if_pos hj]
      refine ⟨by simp, ?_, ?_⟩
      · intro r hr
        simp only [List.mem_map] at hr
        obtain ⟨s, hs, rfl⟩ := hr
        have hle : s.length ≤ ((r0 :: rest).map List.length).foldr max 0 := by
          have : s.length ∈ (r0 :: rest).map List.length := List.mem_map_of_mem _ hs
          exact List.le_max_of_le (l := (r0 :: rest).map List.length) this le_rfl
        simp only [List.length_append, List.length_replicate]
        omega
      · rw [List.forall₂_map_right_iff]
        exact List.forall₂_same.2 fun s _ => rfl
    · rw [Mat.fromRows, if_neg hj]
      have hall : ∀ s ∈ rest, s.length = r0.length := by
        simpa using hj
      have hub : ∀ x ∈ (r0 :: rest).map List.length, x ≤ r0.length := by
        intro x hx
        simp only [List.mem_map, List.mem_cons] at hx
        obtain ⟨s, hs | hs, rfl⟩ := hx
        · subst hs; exact le_rfl
        · exact le_of_eq (hall s hs)
      have hmax : ((r0 :: rest).map List.length).foldr max 0 = r0.length := by
        have hge : r0.length ≤ ((r0 :: rest).map List.length).foldr max 0 :=
          List.le_max_of_le (List.mem_map_of_mem _ (by simp)) le_rfl
        have hle2 : ((r0 :: rest).map List.length).foldr max 0 ≤ r0.length := by
          have : ∀ (l : List ℕ) (n : ℕ), (∀ x ∈ l, x ≤ n) → l.foldr max 0 ≤ n := by
            intro l
            induction l with
            | nil => intro n _; exact Nat.zero_le _
            | cons x t ih =>
              intro n h
              simp only [List.foldr_cons]
              exact max_le (h x (by simp)) (ih n fun u hu => h u (List.mem_cons_of_mem _ hu))
          exact this _ _ hub
        omega
      refine ⟨rfl, ?_, ?_⟩
      · intro r hr
        rw [hmax]
        rcases List.mem_cons.1 hr with rfl | hr
        · rfl
        · exact hall r hr
      · rw [hmax]
        refine List.forall₂_same.2 fun s hs => ?_
        have : s.length = r0.length := by
          rcases List.mem_cons.1 hs with rfl | hs
          · rfl
          · exact hall s hs
        simp [this]

/-- Witness for C9 at the jagged input `[[1,2],[3]]`. -/
theorem claim_C9_witness :
    ([[(1 : ℝ), 2], [3]] ≠ ([] : List (List ℝ))) ∧
    (((Mat.fromRows [[(1 : ℝ), 2], [3]]).rows.length = 2) ∧
      (∀ r ∈ (Mat.fromRows [[(1 : ℝ), 2], [3]]).rows,
        r.length = ([[(1 : ℝ), 2], [3]].map List.length).foldr max 0) ∧
      List.Forall₂
        (fun r r' =>
          r' = r ++ List.replicate
            (([[(1 : ℝ), 2], [3]].map List.length).foldr max 0 - r.length) (0 : ℝ))
        [[(1 : ℝ), 2], [3]] (Mat.fromRows [[(1 : ℝ), 2], [3]]).rows) := by
  constructor
  · simp
  · exact claim_C9 [[(1 : ℝ), 2], [3]] (by simp)

/-- C10: `RowsCount()` returns the number of columns (the length of the
first row), the same value as `ColsCount()` and `len()`, so it equals the
true row count exactly when the matrix is square; a 3×1 column vector
reports `RowsCount() = 1`. -/
theorem claim_C10 :
    (∀ M : Mat, 1 ≤ M.rows.length →
      M.RowsCount = M.ColsCount ∧ M.RowsCount = M.pyLen ∧
        (M.RowsCount = M.rows.length ↔ M.rows.length = M.ColsCount)) ∧
    (Mat.fromRows [[(1 : ℝ)], [2], [3]]).rows.length = 3 ∧
    (Mat.fromRows [[(1 : ℝ)], [2], [3]]).RowsCount = 1 := by
  refine ⟨fun M _ => ⟨rfl, rfl, ?_⟩, rfl, rfl⟩
  unfold Mat.RowsCount Mat.ColsCount
  constructor <;> (intro h; omega)

/-- Witness for C10 at a concrete 2×3 matrix. -/
theorem claim_C10_witness :
    (1 ≤ (Mat.fromRows [[(1 : ℝ), 2, 3], [4, 5, 6]]).rows.length) ∧
    ((Mat.fromRows [[(1 : ℝ), 2, 3], [4, 5, 6]]).RowsCount =
      (Mat.fromRows [[(1 : ℝ), 2, 3], [4, 5, 6]]).ColsCount) := by
  have h := claim_C10.1 (Mat.fromRows [[(1 : ℝ), 2, 3], [4, 5, 6]]) (by decide)
  exact ⟨by decide, h.1⟩

end RoboDK

namespace RoboDK

theorem norm_eq_of_sq (p q r w : ℝ) (hw : 0 ≤ w) (h : p*p + q*q + r*r = w*w) :
    norm [p, q, r] = w := by
  unfold norm sqrt
  show Real.sqrt (p*p + q*q + r*r) = w
  rw [h]
  exact Real.sqrt_mul_self hw

theorem ur_branch1 (a b c d e f g h i x y z : ℝ)
    (hb1 : acos (min (max ((a + e + i - 1) * 0.5) (-1)) 1) < 1e-8) :
    Pose_2_UR (Mat.mk [[a,b,c,x],[d,e,f,y],[g,h,i,z],[0,0,0,1]]) = [x, y, z, 0, 0, 0] := by
  unfold Pose_2_UR
  simp only [show (Mat.mk [[a,b,c,x],[d,e,f,y],[g,h,i,z],[0,0,0,1]]).get 0 0 = a from rfl,
    show (Mat.mk [[a,b,c,x],[d,e,f,y],[g,h,i,z],[0,0,0,1]]).get 1 1 = e from rfl,
    show (Mat.mk [[a,b,c,x],[d,e,f,y],[g,h,i,z],[0,0,0,1]]).get 2 2 = i from rfl,
    show (Mat.mk [[a,b,c,x],[d,e,f,y],[g,h,i,z],[0,0,0,1]]).get 2 1 = h from rfl,
    show (Mat.mk [[a,b,c,x],[d,e,f,y],[g,h,i,z],[0,0,0,1]]).get 1 2 = f from rfl,
    show (Mat.mk [[a,b,c,x],[d,e,f,y],[g,h,i,z],[0,0,0,1]]).get 0 2 = c from rfl,
    show (Mat.mk [[a,b,c,x],[d,e,f,y],[g,h,i,z],[0,0,0,1]]).get 2 0 = g from rfl,
    show (Mat.mk [[a,b,c,x],[d,e,f,y],[g,h,i,z],[0,0,0,1]]).get 1 0 = d from rfl,
    show (Mat.mk [[a,b,c,x],[d,e,f,y],[g,h,i,z],[0,0,0,1]]).get 0 1 = b from rfl,
    show (Mat.mk [[a,b,c,x],[d,e,f,y],[g,h,i,z],[0,0,0,1]]).get 0 3 = x from rfl,
    show (Mat.mk [[a,b,c,x],[d,e,f,y],[g,h,i,z],[0,0,0,1]]).get 1 3 = y from rfl,
    show (Mat.mk [[a,b,c,x],[d,e,f,y],[g,h,i,z],[0,0,0,1]]).get 2 3 = z from rfl]
  rw [if_pos hb1]
  rfl

theorem ur_general (a b c d e f g h i x y z : ℝ)
    (hb1 : ¬ (acos (min (max ((a + e + i - 1) * 0.5) (-1)) 1) < 1e-8))
    (hb2 : ¬ (|sin (acos (min (max ((a + e + i - 1) * 0.5) (-1)) 1))| < 1e-8 ∨
      norm [h - f, c - g, d - b] < 1e-8)) :
    Pose_2_UR (Mat.mk [[a,b,c,x],[d,e,f,y],[g,h,i,z],[0,0,0,1]]) =
      [x, y, z,
       (h - f) * (1 / norm [h - f, c - g, d - b]) *
         acos (min (max ((a + e + i - 1) * 0.5) (-1)) 1),
       (c - g) * (1 / norm [h - f, c - g, d - b]) *
         acos (min (max ((a + e + i - 1) * 0.5) (-1)) 1),
       (d - b) * (1 / norm [h - f, c - g, d - b]) *
         acos (min (max ((a + e + i - 1) * 0.5) (-1)) 1)] := by
  unfold Pose_2_UR
  simp only [show (Mat.mk [[a,b,c,x],[d,e,f,y],[g,h,i,z],[0,0,0,1]]).get 0 0 = a from rfl,
    show (Mat.mk [[a,b,c,x],[d,e,f,y],[g,h,i,z],[0,0,0,1]]).get 1 1 = e from rfl,
    show (Mat.mk [[a,b,c,x],[d,e,f,y],[g,h,i,z],[0,0,0,1]]).get 2 2 = i from rfl,
    show (Mat.mk [[a,b,c,x],[d,e,f,y],[g,h,i,z],[0,0,0,1]]).get 2 1 = h from rfl,
    show (Mat.mk [[a,b,c,x],[d,e,f,y],[g,h,i,z],[0,0,0,1]]).get 1 2 = f from rfl,
    show (Mat.mk [[a,b,c,x],[d,e,f,y],[g,h,i,z],[0,0,0,1]]).get 0 2 = c from rfl,
    show (Mat.mk [[a,b,c,x],[d,e,f,y],[g,h,i,z],[0,0,0,1]]).get 2 0 = g from rfl,
    show (Mat.mk [[a,b,c,x],[d,e,f,y],[g,h,i,z],[0,0,0,1]]).get 1 0 = d from rfl,
    show (Mat.mk [[a,b,c,x],[d,e,f,y],[g,h,i,z],[0,0,0,1]]).get 0 1 = b from rfl,
    show (Mat.mk [[a,b,c,x],[d,e,f,y],[g,h,i,z],[0,0,0,1]]).get 0 3 = x from rfl,
    show (Mat.mk [[a,b,c,x],[d,e,f,y],[g,h,i,z],[0,0,0,1]]).get 1 3 = y from rfl,
    show (Mat.mk [[a,b,c,x],[d,e,f,y],[g,h,i,z],[0,0,0,1]]).get 2 3 = z from rfl]
  rw [if_neg hb1, if_neg hb2]
  rfl

theorem ur_fallback_k0 (a b c d e f g h i x y z : ℝ)
    (hb1 : ¬ (acos (min (max ((a + e + i - 1) * 0.5) (-1)) 1) < 1e-8))
    (hb2 : |sin (acos (min (max ((a + e + i - 1) * 0.5) (-1)) 1))| < 1e-8 ∨
      norm [h - f, c - g, d - b] < 1e-8)
    (hk0 : a ≥ e ∧ a ≥ i) :
    Pose_2_UR (Mat.mk [[a,b,c,x],[d,e,f,y],[g,h,i,z],[0,0,0,1]]) =
      [x, y, z,
       (a + 1) * (acos (min (max ((a + e + i - 1) * 0.5) (-1)) 1) / sqrt (max 0 (2 * (1 + a)))),
       d * (acos (min (max ((a + e + i - 1) * 0.5) (-1)) 1) / sqrt (max 0 (2 * (1 + a)))),
       g * (acos (min (max ((a + e + i - 1) * 0.5) (-1)) 1) / sqrt (max 0 (2 * (1 + a))))] := by
  unfold Pose_2_UR
  simp only [show (Mat.mk [[a,b,c,x],[d,e,f,y],[g,h,i,z],[0,0,0,1]]).get 0 0 = a from rfl,
    show (Mat.mk [[a,b,c,x],[d,e,f,y],[g,h,i,z],[0,0,0,1]]).get 1 1 = e from rfl,
    show (Mat.mk [[a,b,c,x],[d,e,f,y],[g,h,i,z],[0,0,0,1]]).get 2 2 = i from rfl,
    show (Mat.mk [[a,b,c,x],[d,e,f,y],[g,h,i,z],[0,0,0,1]]).get 2 1 = h from rfl,
    show (Mat.mk [[a,b,c,x],[d,e,f,y],[g,h,i,z],[0,0,0,1]]).get 1 2 = f from rfl,
    show (Mat.mk [[a,b,c,x],[d,e,f,y],[g,h,i,z],[0,0,0,1]]).get 0 2 = c from rfl,
    show (Mat.mk [[a,b,c,x],[d,e,f,y],[g,h,i,z],[0,0,0,1]]).get 2 0 = g from rfl,
    show (Mat.mk [[a,b,c,x],[d,e,f,y],[g,h,i,z],[0,0,0,1]]).get 1 0 = d from rfl,
    show (Mat.mk [[a,b,c,x],[d,e,f,y],[g,h,i,z],[0,0,0,1]]).get 0 1 = b from rfl,
    show (Mat.mk [[a,b,c,x],[d,e,f,y],[g,h,i,z],[0,0,0,1]]).get 0 3 = x from rfl,
    show (Mat.mk [[a,b,c,x],[d,e,f,y],[g,h,i,z],[0,0,0,1]]).get 1 3 = y from rfl,
    show (Mat.mk [[a,b,c,x],[d,e,f,y],[g,h,i,z],[0,0,0,1]]).get 2 3 = z from rfl]
  rw [if_neg hb1, if_pos hb2]
  simp only [show ([a, e, i] : List ℝ).getD 0 0 = a from rfl,
    show ([a, e, i] : List ℝ).getD 1 0 = e from rfl,
    show ([a, e, i] : List ℝ).getD 2 0 = i from rfl]
  rw [if_pos hk0, if_pos rfl]
  rfl

end RoboDK

namespace RoboDK

theorem ur_fallback_k1 (a b c d e f g h i x y z : ℝ)
    (hb1 : ¬ (acos (min (max ((a + e + i - 1) * 0.5) (-1)) 1) < 1e-8))
    (hb2 : |sin (acos (min (max ((a + e + i - 1) * 0.5) (-1)) 1))| < 1e-8 ∨
      norm [h - f, c - g, d - b] < 1e-8)
    (hk0 : ¬ (a ≥ e ∧ a ≥ i)) (hk1 : e ≥ i) :
    Pose_2_UR (Mat.mk [[a,b,c,x],[d,e,f,y],[g,h,i,z],[0,0,0,1]]) =
      [x, y, z,
       b * (acos (min (max ((a + e + i - 1) * 0.5) (-1)) 1) / sqrt (max 0 (2 * (1 + e)))),
       (e + 1) * (acos (min (max ((a + e + i - 1) * 0.5) (-1)) 1) / sqrt (max 0 (2 * (1 + e)))),
       h * (acos (min (max ((a + e + i - 1) * 0.5) (-1)) 1) / sqrt (max 0 (2 * (1 + e))))] := by
  unfold Pose_2_UR
  simp only [show (Mat.mk [[a,b,c,x],[d,e,f,y],[g,h,i,z],[0,0,0,1]]).get 0 0 = a from rfl,
    show (Mat.mk [[a,b,c,x],[d,e,f,y],[g,h,i,z],[0,0,0,1]]).get 1 1 = e from rfl,
    show (Mat.mk [[a,b,c,x],[d,e,f,y],[g,h,i,z],[0,0,0,1]]).get 2 2 = i from rfl,
    show (Mat.mk [[a,b,c,x],[d,e,f,y],[g,h,i,z],[0,0,0,1]]).get 2 1 = h from rfl,
    show (Mat.mk [[a,b,c,x],[d,e,f,y],[g,h,i,z],[0,0,0,1]]).get 1 2 = f from rfl,
    show (Mat.mk [[a,b,c,x],[d,e,f,y],[g,h,i,z],[0,0,0,1]]).get 0 2 = c from rfl,
    show (Mat.mk [[a,b,c,x],[d,e,f,y],[g,h,i,z],[0,0,0,1]]).get 2 0 = g from rfl,
    show (Mat.mk [[a,b,c,x],[d,e,f,y],[g,h,i,z],[0,0,0,1]]).get 1 0 = d from rfl,
    show (Mat.mk [[a,b,c,x],[d,e,f,y],[g,h,i,z],[0,0,0,1]]).get 0 1 = b from rfl,
    show (Mat.mk [[a,b,c,x],[d,e,f,y],[g,h,i,z],[0,0,0,1]]).get 0 3 = x from rfl,
    show (Mat.mk [[a,b,c,x],[d,e,f,y],[g,h,i,z],[0,0,0,1]]).get 1 3 = y from rfl,
    show (Mat.mk [[a,b,c,x],[d,e,f,y],[g,h,i,z],[0,0,0,1]]).get 2 3 = z from rfl]
  rw [if_neg hb1, if_pos hb2]
  simp only [show ([a, e, i] : List ℝ).getD 0 0 = a from rfl,
    show ([a, e, i] : List ℝ).getD 1 0 = e from rfl,
    show ([a, e, i] : List ℝ).getD 2 0 = i from rfl]
  rw [if_neg hk0, if_pos hk1]
  rw [if_neg (by norm_num), if_pos rfl]
  rfl

theorem ur_fallback_k2 (a b c d e f g h i x y z : ℝ)
    (hb1 : ¬ (acos (min (max ((a + e + i - 1) * 0.5) (-1)) 1) < 1e-8))
    (hb2 : |sin (acos (min (max ((a + e + i - 1) * 0.5) (-1)) 1))| < 1e-8 ∨
      norm [h - f, c - g, d - b] < 1e-8)
    (hk0 : ¬ (a ≥ e ∧ a ≥ i)) (hk1 : ¬ (e ≥ i)) :
    Pose_2_UR (Mat.mk [[a,b,c,x],[d,e,f,y],[g,h,i,z],[0,0,0,1]]) =
      [x, y, z,
       c * (acos (min (max ((a + e + i - 1) * 0.5) (-1)) 1) / sqrt (max 0 (2 * (1 + i)))),
       f * (acos (min (max ((a + e + i - 1) * 0.5) (-1)) 1) / sqrt (max 0 (2 * (1 + i)))),
       (i + 1) * (acos (min (max ((a + e + i - 1) * 0.5) (-1)) 1) / sqrt (max 0 (2 * (1 + i))))] := by
  unfold Pose_2_UR
  simp only [show (Mat.mk [[a,b,c,x],[d,e,f,y],[g,h,i,z],[0,0,0,1]]).get 0 0 = a from rfl,
    show (Mat.mk [[a,b,c,x],[d,e,f,y],[g,h,i,z],[0,0,0,1]]).get 1 1 = e from rfl,
    show (Mat.mk [[a,b,c,x],[d,e,f,y],[g,h,i,z],[0,0,0,1]]).get 2 2 = i from rfl,
    show (Mat.mk [[a,b,c,x],[d,e,f,y],[g,h,i,z],[0,0,0,1]]).get 2 1 = h from rfl,
    show (Mat.mk [[a,b,c,x],[d,e,f,y],[g,h,i,z],[0,0,0,1]]).get 1 2 = f from rfl,
    show (Mat.mk [[a,b,c,x],[d,e,f,y],[g,h,i,z],[0,0,0,1]]).get 0 2 = c from rfl,
    show (Mat.mk [[a,b,c,x],[d,e,f,y],[g,h,i,z],[0,0,0,1]]).get 2 0 = g from rfl,
    show (Mat.mk [[a,b,c,x],[d,e,f,y],[g,h,i,z],[0,0,0,1]]).get 1 0 = d from rfl,
    show (Mat.mk [[a,b,c,x],[d,e,f,y],[g,h,i,z],[0,0,0,1]]).get 0 1 = b from rfl,
    show (Mat.mk [[a,b,c,x],[d,e,f,y],[g,h,i,z],[0,0,0,1]]).get 0 3 = x from rfl,
    show (Mat.mk [[a,b,c,x],[d,e,f,y],[g,h,i,z],[0,0,0,1]]).get 1 3 = y from rfl,
    show (Mat.mk [[a,b,c,x],[d,e,f,y],[g,h,i,z],[0,0,0,1]]).get 2 3 = z from rfl]
  rw [if_neg hb1, if_pos hb2]
  simp only [show ([a, e, i] : List ℝ).getD 0 0 = a from rfl,
    show ([a, e, i] : List ℝ).getD 1 0 = e from rfl,
    show ([a, e, i] : List ℝ).getD 2 0 = i from rfl]
  rw [if_neg hk0, if_neg hk1]
  rw [if_neg (by norm_num), if_neg (by norm_num)]
  rfl

theorem quaternion_2_pose_of_unit (q0 q1 q2 q3 : ℝ)
    (hq : sqrt (q0*q0 + q1*q1 + q2*q2 + q3*q3) = 1) :
    (quaternion_2_pose [q0, q1, q2, q3]).1 =
      Mat.mk [[1 - 2*q2*q2 - 2*q3*q3, 2*q1*q2 - 2*q3*q0, 2*q1*q3 + 2*q2*q0, 0],
              [2*q1*q2 + 2*q3*q0, 1 - 2*q1*q1 - 2*q3*q3, 2*q2*q3 - 2*q1*q0, 0],
              [2*q1*q3 - 2*q2*q0, 2*q2*q3 + 2*q1*q0, 1 - 2*q1*q1 - 2*q2*q2, 0],
              [0, 0, 0, 1]] := by
  unfold quaternion_2_pose
  simp only [show ([q0, q1, q2, q3] : List ℝ).getD 0 0 = q0 from rfl,
    show ([q0, q1, q2, q3] : List ℝ).getD 1 0 = q1 from rfl,
    show ([q0, q1, q2, q3] : List ℝ).getD 2 0 = q2 from rfl,
    show ([q0, q1, q2, q3] : List ℝ).getD 3 0 = q3 from rfl]
  rw [hq]
  norm_num [Mat.fromRows]

theorem setPos_mk (m00 m01 m02 m03 m10 m11 m12 m13 m20 m21 m22 m23 m30 m31 m32 m33 x y z : ℝ) :
    (Mat.mk [[m00,m01,m02,m03],[m10,m11,m12,m13],[m20,m21,m22,m23],[m30,m31,m32,m33]]).setPos
        [x, y, z] =
      Mat.mk [[m00,m01,m02,x],[m10,m11,m12,y],[m20,m21,m22,z],[m30,m31,m32,m33]] := by
  norm_num [Mat.setPos, Mat.setElem, Mat.setRange, Mat.get, Mat.fromRows, List.range_succ]

end RoboDK

namespace RoboDK

theorem rot_antisym_sq (a b c d e f g h i : ℝ)
    (h1 : a*a + b*b + c*c = 1) (h2 : d*d + e*e + f*f = 1) (h3 : g*g + h*h + i*i = 1)
    (h4 : a*d + b*e + c*f = 0) (h5 : a*g + b*h + c*i = 0) (h6 : d*g + e*h + f*i = 0)
    (hdet : a*(e*i - f*h) - b*(d*i - f*g) + c*(d*h - e*g) = 1) :
    (3 - (a+e+i)) * (1 + (a+e+i)) = (h-f)^2 + (c-g)^2 + (d-b)^2 := by
  obtain ⟨k00, k01, k02, k10, k11, k12, k20, k21, k22⟩ :=
    rot_cofactors a b c d e f g h i h1 h2 h3 h4 h5 h6 hdet
  linear_combination (-1)*h1 - h2 - h3 - 2*k00 - 2*k11 - 2*k22

theorem rot_quat_identities (a b c d e f g h i : ℝ)
    (h1 : a*a + b*b + c*c = 1) (h2 : d*d + e*e + f*f = 1) (h3 : g*g + h*h + i*i = 1)
    (h4 : a*d + b*e + c*f = 0) (h5 : a*g + b*h + c*i = 0) (h6 : d*g + e*h + f*i = 0)
    (hdet : a*(e*i - f*h) - b*(d*i - f*g) + c*(d*h - e*g) = 1) :
    (2*(1 + (a+e+i))*(1 - a) = (c-g)^2 + (d-b)^2) ∧
    (2*(1 + (a+e+i))*(1 - e) = (h-f)^2 + (d-b)^2) ∧
    (2*(1 + (a+e+i))*(1 - i) = (h-f)^2 + (c-g)^2) ∧
    ((h-f)*(c-g) = (1 + (a+e+i))*(b + d)) ∧
    ((h-f)*(d-b) = (1 + (a+e+i))*(c + g)) ∧
    ((c-g)*(d-b) = (1 + (a+e+i))*(f + h)) := by
  obtain ⟨c1, c2, c3, c4, c5, c6⟩ := rot_cols_of_rows a b c d e f g h i h1 h2 h3 h4 h5 h6
  obtain ⟨k00, k01, k02, k10, k11, k12, k20, k21, k22⟩ :=
    rot_cofactors a b c d e f g h i h1 h2 h3 h4 h5 h6 hdet
  refine ⟨?_, ?_, ?_, ?_, ?_, ?_⟩
  · linear_combination (-1)*h1 - c1 - 2*k11 - 2*k22
  · linear_combination (-1)*h2 - c2 - 2*k00 - 2*k22
  · linear_combination (-1)*h3 - c3 - 2*k00 - 2*k11
  · linear_combination k10 + k01 - h4 - c4
  · linear_combination k02 + k20 - h5 - c5
  · linear_combination k21 + k12 - h6 - c6

end RoboDK

namespace RoboDK

theorem trace_le_three (a b c d e f g h i : ℝ)
    (h1 : a*a + b*b + c*c = 1) (h2 : d*d + e*e + f*f = 1) (h3 : g*g + h*h + i*i = 1) :
    a + e + i ≤ 3 := by
  have ha : a ≤ 1 := by nlinarith [sq_nonneg (a - 1), sq_nonneg b, sq_nonneg c]
  have he : e ≤ 1 := by nlinarith [sq_nonneg (e - 1), sq_nonneg d, sq_nonneg f]
  have hi : i ≤ 1 := by nlinarith [sq_nonneg (i - 1), sq_nonneg g, sq_nonneg h]
  linarith

theorem trace_ge_neg_one (a b c d e f g h i : ℝ)
    (h1 : a*a + b*b + c*c = 1) (h2 : d*d + e*e + f*f = 1) (h3 : g*g + h*h + i*i = 1)
    (h4 : a*d + b*e + c*f = 0) (h5 : a*g + b*h + c*i = 0) (h6 : d*g + e*h + f*i = 0)
    (hdet : a*(e*i - f*h) - b*(d*i - f*g) + c*(d*h - e*g) = 1) :
    -1 ≤ a + e + i := by
  have hS := rot_antisym_sq a b c d e f g h i h1 h2 h3 h4 h5 h6 hdet
  have ht3 := trace_le_three a b c d e f g h i h1 h2 h3
  by_contra hcon
  push_neg at hcon
  have hP : 0 < (3 - (a + e + i)) * (-(1 + (a + e + i))) :=
    mul_pos (by linarith) (by linarith)
  nlinarith [sq_nonneg (h - f), sq_nonneg (c - g), sq_nonneg (d - b)]

theorem arccos_scalars (u : ℝ) (hu1 : -1 ≤ u) (hu2 : u ≤ 1) :
    Real.cos (Real.arccos u) = u ∧
    Real.sin (Real.arccos u) ^ 2 = 1 - u ^ 2 ∧
    Real.sin (0.5 * Real.arccos u) ^ 2 = (1 - u) / 2 ∧
    Real.sin (Real.arccos u) =
      2 * Real.sin (0.5 * Real.arccos u) * Real.cos (0.5 * Real.arccos u) := by
  refine ⟨Real.cos_arccos hu1 hu2, ?_, ?_, ?_⟩
  · rw [Real.sin_arccos]
    exact Real.sq_sqrt (by nlinarith)
  · have h2m : 2 * (0.5 * Real.arccos u) = Real.arccos u := by ring
    have hc2 := Real.cos_two_mul (0.5 * Real.arccos u)
    rw [h2m, Real.cos_arccos hu1 hu2] at hc2
    have hpy := Real.sin_sq_add_cos_sq (0.5 * Real.arccos u)
    linarith
  · have h2m : 2 * (0.5 * Real.arccos u) = Real.arccos u := by ring
    have hs2 := Real.sin_two_mul (0.5 * Real.arccos u)
    rw [h2m] at hs2
    exact hs2

theorem norm_zero3 : norm [(0:ℝ), 0, 0] = 0 := by
  show Real.sqrt ((0:ℝ)*0 + 0*0 + 0*0) = 0
  norm_num

theorem ur_norm_general (P Q R θ : ℝ) (hθ : 0 ≤ θ) (hN : 0 < norm [P, Q, R]) :
    norm [P * (1 / norm [P, Q, R]) * θ, Q * (1 / norm [P, Q, R]) * θ,
          R * (1 / norm [P, Q, R]) * θ] = θ := by
  have hne : norm [P, Q, R] ≠ 0 := ne_of_gt hN
  have hNsq : norm [P, Q, R] * norm [P, Q, R] = P * P + Q * Q + R * R := by
    show Real.sqrt (P*P + Q*Q + R*R) * Real.sqrt (P*P + Q*Q + R*R) = P*P + Q*Q + R*R
    exact Real.mul_self_sqrt (by nlinarith [sq_nonneg P, sq_nonneg Q, sq_nonneg R])
  refine norm_eq_of_sq _ _ _ _ hθ ?_
  rw [show P * (1 / norm [P, Q, R]) * θ * (P * (1 / norm [P, Q, R]) * θ) +
      Q * (1 / norm [P, Q, R]) * θ * (Q * (1 / norm [P, Q, R]) * θ) +
      R * (1 / norm [P, Q, R]) * θ * (R * (1 / norm [P, Q, R]) * θ) =
      (P * P + Q * Q + R * R) * (θ * θ) / (norm [P, Q, R] * norm [P, Q, R]) from by ring,
    ← hNsq]
  exact mul_div_cancel_left₀ _ (mul_ne_zero hne hne)

theorem ur_norm_fallback_k0 (a b c d e f g h i : ℝ)
    (h1 : a*a + b*b + c*c = 1) (h2 : d*d + e*e + f*f = 1) (h3 : g*g + h*h + i*i = 1)
    (h4 : a*d + b*e + c*f = 0) (h5 : a*g + b*h + c*i = 0) (h6 : d*g + e*h + f*i = 0)
    (hdet : a*(e*i - f*h) - b*(d*i - f*g) + c*(d*h - e*g) = 1)
    (hae : e ≤ a) (hai : i ≤ a) :
    norm [(a + 1) * (acos ((a + e + i - 1) * 0.5) / sqrt (max 0 (2 * (1 + a)))),
          d * (acos ((a + e + i - 1) * 0.5) / sqrt (max 0 (2 * (1 + a)))),
          g * (acos ((a + e + i - 1) * 0.5) / sqrt (max 0 (2 * (1 + a))))] =
      acos ((a + e + i - 1) * 0.5) := by
  obtain ⟨c1, c2, c3, c4, c5, c6⟩ := rot_cols_of_rows a b c d e f g h i h1 h2 h3 h4 h5 h6
  have hapos : -1 < a := max_diag_gt_neg_one a b c d e f g h i h1 h2 h3 h4 h5 h6 hdet hae hai
  have hpos : (0:ℝ) < 2 * (1 + a) := by linarith
  have hmax : max (0:ℝ) (2 * (1 + a)) = 2 * (1 + a) := max_eq_right (le_of_lt hpos)
  have hsq : sqrt (2 * (1 + a)) * sqrt (2 * (1 + a)) = 2 * (1 + a) :=
    Real.mul_self_sqrt (le_of_lt hpos)
  refine norm_eq_of_sq _ _ _ _ (Real.arccos_nonneg _) ?_
  rw [hmax]
  rw [show (a + 1) * (acos ((a + e + i - 1) * 0.5) / sqrt (2 * (1 + a))) *
        ((a + 1) * (acos ((a + e + i - 1) * 0.5) / sqrt (2 * (1 + a)))) +
      d * (acos ((a + e + i - 1) * 0.5) / sqrt (2 * (1 + a))) *
        (d * (acos ((a + e + i - 1) * 0.5) / sqrt (2 * (1 + a)))) +
      g * (acos ((a + e + i - 1) * 0.5) / sqrt (2 * (1 + a))) *
        (g * (acos ((a + e + i - 1) * 0.5) / sqrt (2 * (1 + a)))) =
      ((a + 1) * (a + 1) + d * d + g * g) *
        (acos ((a + e + i - 1) * 0.5) * acos ((a + e + i - 1) * 0.5)) /
        (sqrt (2 * (1 + a)) * sqrt (2 * (1 + a))) from by ring,
    hsq,
    show (a + 1) * (a + 1) + d * d + g * g = 2 * (1 + a) from by linear_combination c1]
  exact mul_div_cancel_left₀ _ (ne_of_gt hpos)

theorem ur_norm_fallback_k1 (a b c d e f g h i : ℝ)
    (h1 : a*a + b*b + c*c = 1) (h2 : d*d + e*e + f*f = 1) (h3 : g*g + h*h + i*i = 1)
    (h4 : a*d + b*e + c*f = 0) (h5 : a*g + b*h + c*i = 0) (h6 : d*g + e*h + f*i = 0)
    (hdet : a*(e*i - f*h) - b*(d*i - f*g) + c*(d*h - e*g) = 1)
    (hae : a ≤ e) (hie : i ≤ e) :
    norm [b * (acos ((a + e + i - 1) * 0.5) / sqrt (max 0 (2 * (1 + e)))),
          (e + 1) * (acos ((a + e + i - 1) * 0.5) / sqrt (max 0 (2 * (1 + e)))),
          h * (acos ((a + e + i - 1) * 0.5) / sqrt (max 0 (2 * (1 + e))))] =
      acos ((a + e + i - 1) * 0.5) := by
  obtain ⟨c1, c2, c3, c4, c5, c6⟩ := rot_cols_of_rows a b c d e f g h i h1 h2 h3 h4 h5 h6
  have hepos : -1 < e :=
    max_diag_gt_neg_one e d f b a c h g i
      (by linear_combination h2) (by linear_combination h1) (by linear_combination h3)
      (by linear_combination h4) (by linear_combination h6) (by linear_combination h5)
      (by linear_combination hdet) hae hie
  have hpos : (0:ℝ) < 2 * (1 + e) := by linarith
  have hmax : max (0:ℝ) (2 * (1 + e)) = 2 * (1 + e) := max_eq_right (le_of_lt hpos)
  have hsq : sqrt (2 * (1 + e)) * sqrt (2 * (1 + e)) = 2 * (1 + e) :=
    Real.mul_self_sqrt (le_of_lt hpos)
  refine norm_eq_of_sq _ _ _ _ (Real.arccos_nonneg _) ?_
  rw [hmax]
  rw [show b * (acos ((a + e + i - 1) * 0.5) / sqrt (2 * (1 + e))) *
        (b * (acos ((a + e + i - 1) * 0.5) / sqrt (2 * (1 + e)))) +
      (e + 1) * (acos ((a + e + i - 1) * 0.5) / sqrt (2 * (1 + e))) *
        ((e + 1) * (acos ((a + e + i - 1) * 0.5) / sqrt (2 * (1 + e)))) +
      h * (acos ((a + e + i - 1) * 0.5) / sqrt (2 * (1 + e))) *
        (h * (acos ((a + e + i - 1) * 0.5) / sqrt (2 * (1 + e)))) =
      (b * b + (e + 1) * (e + 1) + h * h) *
        (acos ((a + e + i - 1) * 0.5) * acos ((a + e + i - 1) * 0.5)) /
        (sqrt (2 * (1 + e)) * sqrt (2 * (1 + e))) from by ring,
    hsq,
    show b * b + (e + 1) * (e + 1) + h * h = 2 * (1 + e) from by linear_combination c2]
  exact mul_div_cancel_left₀ _ (ne_of_gt hpos)

theorem ur_norm_fallback_k2 (a b c d e f g h i : ℝ)
    (h1 : a*a + b*b + c*c = 1) (h2 : d*d + e*e + f*f = 1) (h3 : g*g + h*h + i*i = 1)
    (h4 : a*d + b*e + c*f = 0) (h5 : a*g + b*h + c*i = 0) (h6 : d*g + e*h + f*i = 0)
    (hdet : a*(e*i - f*h) - b*(d*i - f*g) + c*(d*h - e*g) = 1)
    (hai : a ≤ i) (hei : e ≤ i) :
    norm [c * (acos ((a + e + i - 1) * 0.5) / sqrt (max 0 (2 * (1 + i)))),
          f * (acos ((a + e + i - 1) * 0.5) / sqrt (max 0 (2 * (1 + i)))),
          (i + 1) * (acos ((a + e + i - 1) * 0.5) / sqrt (max 0 (2 * (1 + i))))] =
      acos ((a + e + i - 1) * 0.5) := by
  obtain ⟨c1, c2, c3, c4, c5, c6⟩ := rot_cols_of_rows a b c d e f g h i h1 h2 h3 h4 h5 h6
  have hipos : -1 < i :=
    max_diag_gt_neg_one i h g f e d c b a
      (by linear_combination h3) (by linear_combination h2) (by linear_combination h1)
      (by linear_combination h6) (by linear_combination h5) (by linear_combination h4)
      (by linear_combination hdet) hei hai
  have hpos : (0:ℝ) < 2 * (1 + i) := by linarith
  have hmax : max (0:ℝ) (2 * (1 + i)) = 2 * (1 + i) := max_eq_right (le_of_lt hpos)
  have hsq : sqrt (2 * (1 + i)) * sqrt (2 * (1 + i)) = 2 * (1 + i) :=
    Real.mul_self_sqrt (le_of_lt hpos)
  refine norm_eq_of_sq _ _ _ _ (Real.arccos_nonneg _) ?_
  rw [hmax]
  rw [show c * (acos ((a + e + i - 1) * 0.5) / sqrt (2 * (1 + i))) *
        (c * (acos ((a + e + i - 1) * 0.5) / sqrt (2 * (1 + i)))) +
      f * (acos ((a + e + i - 1) * 0.5) / sqrt (2 * (1 + i))) *
        (f * (acos ((a + e + i - 1) * 0.5) / sqrt (2 * (1 + i)))) +
      (i + 1) * (acos ((a + e + i - 1) * 0.5) / sqrt (2 * (1 + i))) *
        ((i + 1) * (acos ((a + e + i - 1) * 0.5) / sqrt (2 * (1 + i)))) =
      (c * c + f * f + (i + 1) * (i + 1)) *
        (acos ((a + e + i - 1) * 0.5) * acos ((a + e + i - 1) * 0.5)) /
        (sqrt (2 * (1 + i)) * sqrt (2 * (1 + i))) from by ring,
    hsq,
    show c * c + f * f + (i + 1) * (i + 1) = 2 * (1 + i) from by linear_combination c3]
  exact mul_div_cancel_left₀ _ (ne_of_gt hpos)

theorem UR_2_Pose_list (x y z w p r : ℝ) (hz : norm [w, p, r] ≠ 0) :
    UR_2_Pose [x, y, z, w, p, r] =
      ((quaternion_2_pose [cos (0.5 * norm [w, p, r]),
          w * (sin (0.5 * norm [w, p, r]) / norm [w, p, r]),
          p * (sin (0.5 * norm [w, p, r]) / norm [w, p, r]),
          r * (sin (0.5 * norm [w, p, r]) / norm [w, p, r])]).1).setPos [x, y, z] := by
  unfold UR_2_Pose
  simp only [show ([x, y, z, w, p, r] : List ℝ).getD 0 0 = x from rfl,
    show ([x, y, z, w, p, r] : List ℝ).getD 1 0 = y from rfl,
    show ([x, y, z, w, p, r] : List ℝ).getD 2 0 = z from rfl,
    show ([x, y, z, w, p, r] : List ℝ).getD 3 0 = w from rfl,
    show ([x, y, z, w, p, r] : List ℝ).getD 4 0 = p from rfl,
    show ([x, y, z, w, p, r] : List ℝ).getD 5 0 = r from rfl]
  rw [if_neg hz]
  rfl

end RoboDK

namespace RoboDK

theorem quat_entry_diag (V W s sh t q : ℝ) (hs : s ≠ 0)
    (hG1 : sh^2 * (1 + t) = s^2)
    (hD : 2*(1 + t)*(1 - q) = V^2 + W^2) :
    1 - 2*(V*sh/(2*s))*(V*sh/(2*s)) - 2*(W*sh/(2*s))*(W*sh/(2*s)) = q := by
  field_simp
  linear_combination 2*sh^2 * hD - 4*(1 - q) * hG1

theorem quat_entry_off_plus (V W U s sh ch t m T : ℝ) (hs : s ≠ 0)
    (hG1 : sh^2 * (1 + t) = s^2) (hF3 : s = 2 * sh * ch)
    (hVW : V * W = (1 + t) * m) (hT : m + U = 2 * T) :
    2*(V*sh/(2*s))*(W*sh/(2*s)) + 2*(U*sh/(2*s))*ch = T := by
  field_simp
  linear_combination 4*s*sh^2 * hVW + 4*s*m * hG1 - 4*U*s^2 * hF3 + 4*s^3 * hT

theorem quat_entry_off_minus (V W U s sh ch t m T : ℝ) (hs : s ≠ 0)
    (hG1 : sh^2 * (1 + t) = s^2) (hF3 : s = 2 * sh * ch)
    (hVW : V * W = (1 + t) * m) (hT : m - U = 2 * T) :
    2*(V*sh/(2*s))*(W*sh/(2*s)) - 2*(U*sh/(2*s))*ch = T := by
  field_simp
  linear_combination 4*s*sh^2 * hVW + 4*s*m * hG1 + 4*U*s^2 * hF3 + 4*s^3 * hT

theorem quat_q_unit (P Q R s sh ch : ℝ) (hs : s ≠ 0)
    (hsum : P*P + Q*Q + R*R = 4 * s^2) :
    ch * ch + P*sh/(2*s)*(P*sh/(2*s)) + Q*sh/(2*s)*(Q*sh/(2*s)) + R*sh/(2*s)*(R*sh/(2*s))
      = sh^2 + ch^2 := by
  field_simp
  linear_combination sh^2 * hsum

end RoboDK

namespace RoboDK

set_option maxHeartbeats 4000000 in
theorem ur_roundtrip (a b c d e f g h i x y z : ℝ)
    (h1 : a*a + b*b + c*c = 1) (h2 : d*d + e*e + f*f = 1) (h3 : g*g + h*h + i*i = 1)
    (h4 : a*d + b*e + c*f = 0) (h5 : a*g + b*h + c*i = 0) (h6 : d*g + e*h + f*i = 0)
    (hdet : a*(e*i - f*h) - b*(d*i - f*g) + c*(d*h - e*g) = 1)
    (hs : 1e-8 ≤ Real.sin (acos ((a + e + i - 1) * 0.5))) :
    UR_2_Pose (Pose_2_UR (Mat.mk [[a,b,c,x],[d,e,f,y],[g,h,i,z],[0,0,0,1]])) =
      Mat.mk [[a,b,c,x],[d,e,f,y],[g,h,i,z],[0,0,0,1]] := by
  have ht3 := trace_le_three a b c d e f g h i h1 h2 h3
  have htm1 := trace_ge_neg_one a b c d e f g h i h1 h2 h3 h4 h5 h6 hdet
  have hS := rot_antisym_sq a b c d e f g h i h1 h2 h3 h4 h5 h6 hdet
  obtain ⟨hD1, hD2, hD3, hI1, hI2, hI3⟩ :=
    rot_quat_identities a b c d e f g h i h1 h2 h3 h4 h5 h6 hdet
  have hu1 : (-1:ℝ) ≤ (a + e + i - 1) * 0.5 := by linarith
  have hu2 : (a + e + i - 1) * 0.5 ≤ 1 := by linarith
  have hclamp : min (max ((a + e + i - 1) * 0.5) (-1)) 1 = (a + e + i - 1) * 0.5 := by
    rw [max_eq_left hu1, min_eq_left hu2]
  obtain ⟨hcosθ, hsin_sq, hsh_sq, hshch⟩ := arccos_scalars ((a + e + i - 1) * 0.5) hu1 hu2
  have hs' : 1e-8 ≤ Real.sin (Real.arccos ((a + e + i - 1) * 0.5)) := hs
  have hspos : 0 < Real.sin (Real.arccos ((a + e + i - 1) * 0.5)) :=
    lt_of_lt_of_le (by norm_num) hs'
  have hsne : Real.sin (Real.arccos ((a + e + i - 1) * 0.5)) ≠ 0 := ne_of_gt hspos
  have hθ0 : (0:ℝ) ≤ Real.arccos ((a + e + i - 1) * 0.5) := Real.arccos_nonneg _
  have hθpos : (0:ℝ) < Real.arccos ((a + e + i - 1) * 0.5) := by
    rcases lt_or_eq_of_le hθ0 with h' | h'
    · exact h'
    · exfalso
      rw [← h', Real.sin_zero] at hspos
      exact lt_irrefl 0 hspos
  have hθne : Real.arccos ((a + e + i - 1) * 0.5) ≠ 0 := ne_of_gt hθpos
  have hθsin : Real.sin (Real.arccos ((a + e + i - 1) * 0.5)) ≤
      Real.arccos ((a + e + i - 1) * 0.5) := Real.sin_le hθ0
  have hN2 : norm [h - f, c - g, d - b] =
      2 * Real.sin (Real.arccos ((a + e + i - 1) * 0.5)) := by
    refine norm_eq_of_sq _ _ _ _ (by linarith) ?_
    linear_combination (-1) * hS - 4 * hsin_sq
  have hNpos : 0 < norm [h - f, c - g, d - b] := by
    rw [hN2]
    linarith
  have hb1c : ¬ (acos (min (max ((a + e + i - 1) * 0.5) (-1)) 1) < 1e-8) := by
    rw [hclamp]
    push_neg
    show (1e-8:ℝ) ≤ Real.arccos ((a + e + i - 1) * 0.5)
    linarith
  have hb2c : ¬ (|sin (acos (min (max ((a + e + i - 1) * 0.5) (-1)) 1))| < 1e-8 ∨
      norm [h - f, c - g, d - b] < 1e-8) := by
    rw [hclamp]
    push_neg
    constructor
    · show (1e-8:ℝ) ≤ |sin (acos ((a + e + i - 1) * 0.5))|
      rw [show sin (acos ((a + e + i - 1) * 0.5)) =
          Real.sin (Real.arccos ((a + e + i - 1) * 0.5)) from rfl, abs_of_pos hspos]
      exact hs'
    · rw [hN2]
      linarith
  rw [ur_general a b c d e f g h i x y z hb1c hb2c, hclamp]
  simp only [show acos ((a + e + i - 1) * 0.5) =
      Real.arccos ((a + e + i - 1) * 0.5) from rfl]
  set θv := Real.arccos ((a + e + i - 1) * 0.5) with hθdef
  have hG1 : Real.sin (0.5 * θv)^2 * (1 + (a + e + i)) = Real.sin θv^2 := by
    linear_combination (1 + (a + e + i)) * hsh_sq - hsin_sq
  have hsum : (h - f)*(h - f) + (c - g)*(c - g) + (d - b)*(d - b) = 4 * Real.sin θv^2 := by
    linear_combination (-1) * hS - 4 * hsin_sq
  have hang : norm [(h - f) * (1 / norm [h - f, c - g, d - b]) * θv,
      (c - g) * (1 / norm [h - f, c - g, d - b]) * θv,
      (d - b) * (1 / norm [h - f, c - g, d - b]) * θv] = θv :=
    ur_norm_general (h - f) (c - g) (d - b) θv (le_of_lt hθpos) hNpos
  have hzne : norm [(h - f) * (1 / norm [h - f, c - g, d - b]) * θv,
      (c - g) * (1 / norm [h - f, c - g, d - b]) * θv,
      (d - b) * (1 / norm [h - f, c - g, d - b]) * θv] ≠ 0 := by
    rw [hang]
    exact hθne
  rw [UR_2_Pose_list x y z _ _ _ hzne, hang, hN2]
  simp only [show ∀ v : ℝ, sin v = Real.sin v from fun v => rfl,
    show ∀ v : ℝ, cos v = Real.cos v from fun v => rfl]
  have key : ∀ v : ℝ, v * (1 / (2 * Real.sin θv)) * θv * (Real.sin (0.5 * θv) / θv) =
      v * Real.sin (0.5 * θv) / (2 * Real.sin θv) := fun v => by
    field_simp
    ring
  simp only [key]
  have hq : sqrt (Real.cos (0.5 * θv) * Real.cos (0.5 * θv) +
      (h - f) * Real.sin (0.5 * θv) / (2 * Real.sin θv) *
        ((h - f) * Real.sin (0.5 * θv) / (2 * Real.sin θv)) +
      (c - g) * Real.sin (0.5 * θv) / (2 * Real.sin θv) *
        ((c - g) * Real.sin (0.5 * θv) / (2 * Real.sin θv)) +
      (d - b) * Real.sin (0.5 * θv) / (2 * Real.sin θv) *
        ((d - b) * Real.sin (0.5 * θv) / (2 * Real.sin θv))) = 1 := by
    rw [show Real.cos (0.5 * θv) * Real.cos (0.5 * θv) +
        (h - f) * Real.sin (0.5 * θv) / (2 * Real.sin θv) *
          ((h - f) * Real.sin (0.5 * θv) / (2 * Real.sin θv)) +
        (c - g) * Real.sin (0.5 * θv) / (2 * Real.sin θv) *
          ((c - g) * Real.sin (0.5 * θv) / (2 * Real.sin θv)) +
        (d - b) * Real.sin (0.5 * θv) / (2 * Real.sin θv) *
          ((d - b) * Real.sin (0.5 * θv) / (2 * Real.sin θv)) =
        Real.sin (0.5 * θv)^2 + Real.cos (0.5 * θv)^2 from
      quat_q_unit (h - f) (c - g) (d - b) (Real.sin θv) (Real.sin (0.5 * θv))
        (Real.cos (0.5 * θv)) hsne hsum]
    rw [Real.sin_sq_add_cos_sq]
    exact Real.sqrt_one
  rw [quaternion_2_pose_of_unit _ _ _ _ hq, setPos_mk]
  rw [quat_entry_diag (c - g) (d - b) (Real.sin θv) (Real.sin (0.5 * θv)) (a + e + i) a
        hsne hG1 hD1,
      quat_entry_off_minus (h - f) (c - g) (d - b) (Real.sin θv) (Real.sin (0.5 * θv))
        (Real.cos (0.5 * θv)) (a + e + i) (b + d) b hsne hG1 hshch hI1 (by ring),
      quat_entry_off_plus (h - f) (d - b) (c - g) (Real.sin θv) (Real.sin (0.5 * θv))
        (Real.cos (0.5 * θv)) (a + e + i) (c + g) c hsne hG1 hshch hI2 (by ring),
      quat_entry_off_plus (h - f) (c - g) (d - b) (Real.sin θv) (Real.sin (0.5 * θv))
        (Real.cos (0.5 * θv)) (a + e + i) (b + d) d hsne hG1 hshch hI1 (by ring),
      quat_entry_diag (h - f) (d - b) (Real.sin θv) (Real.sin (0.5 * θv)) (a + e + i) e
        hsne hG1 hD2,
      quat_entry_off_minus (c - g) (d - b) (h - f) (Real.sin θv) (Real.sin (0.5 * θv))
        (Real.cos (0.5 * θv)) (a + e + i) (f + h) f hsne hG1 hshch hI3 (by ring),
      quat_entry_off_minus (h - f) (d - b) (c - g) (Real.sin θv) (Real.sin (0.5 * θv))
        (Real.cos (0.5 * θv)) (a + e + i) (c + g) g hsne hG1 hshch hI2 (by ring),
      quat_entry_off_plus (c - g) (d - b) (h - f) (Real.sin θv) (Real.sin (0.5 * θv))
        (Real.cos (0.5 * θv)) (a + e + i) (f + h) h hsne hG1 hshch hI3 (by ring),
      quat_entry_diag (h - f) (c - g) (Real.sin θv) (Real.sin (0.5 * θv)) (a + e + i) i
        hsne hG1 hD3]

end RoboDK

namespace RoboDK

theorem listGet3 (u0 u1 u2 u3 u4 u5 : ℝ) :
    ([u0, u1, u2, u3, u4, u5] : List ℝ).getD 3 0 = u3 := rfl

theorem listGet4 (u0 u1 u2 u3 u4 u5 : ℝ) :
    ([u0, u1, u2, u3, u4, u5] : List ℝ).getD 4 0 = u4 := rfl

theorem listGet5 (u0 u1 u2 u3 u4 u5 : ℝ) :
    ([u0, u1, u2, u3, u4, u5] : List ℝ).getD 5 0 = u5 := rfl

set_option maxHeartbeats 4000000 in
/-- C5 (amended): for a pose whose rotation block is exactly orthonormal with
determinant 1, the last three components of `Pose_2_UR` form an axis vector
whose euclidean norm equals `pose_angle` within `1e-6` in every branch of the
algorithm (the difference is the angle itself, below `1e-8`, in the
small-angle branch, and exactly zero in the degenerate-fallback and general
branches); the axis is exactly `[0, 0, 0]` when `pose_angle < 1e-8`; and
whenever `sin (pose_angle)` clears the `1e-8` degeneracy tolerance the round
trip `UR_2_Pose (Pose_2_UR P) = P` holds exactly. Under the `isHomogeneous`
tolerance alone the claim fails — see the counterexample. -/
theorem claim_C5 (a b c d e f g h i x y z : ℝ)
    (h1 : a*a + b*b + c*c = 1) (h2 : d*d + e*e + f*f = 1) (h3 : g*g + h*h + i*i = 1)
    (h4 : a*d + b*e + c*f = 0) (h5 : a*g + b*h + c*i = 0) (h6 : d*g + e*h + f*i = 0)
    (hdet : a*(e*i - f*h) - b*(d*i - f*g) + c*(d*h - e*g) = 1) :
    |norm [(Pose_2_UR (Mat.mk [[a,b,c,x],[d,e,f,y],[g,h,i,z],[0,0,0,1]])).getD 3 0,
           (Pose_2_UR (Mat.mk [[a,b,c,x],[d,e,f,y],[g,h,i,z],[0,0,0,1]])).getD 4 0,
           (Pose_2_UR (Mat.mk [[a,b,c,x],[d,e,f,y],[g,h,i,z],[0,0,0,1]])).getD 5 0] -
        pose_angle (Mat.mk [[a,b,c,x],[d,e,f,y],[g,h,i,z],[0,0,0,1]])| ≤ 1e-6 ∧
    (pose_angle (Mat.mk [[a,b,c,x],[d,e,f,y],[g,h,i,z],[0,0,0,1]]) < 1e-8 →
      norm [(Pose_2_UR (Mat.mk [[a,b,c,x],[d,e,f,y],[g,h,i,z],[0,0,0,1]])).getD 3 0,
            (Pose_2_UR (Mat.mk [[a,b,c,x],[d,e,f,y],[g,h,i,z],[0,0,0,1]])).getD 4 0,
            (Pose_2_UR (Mat.mk [[a,b,c,x],[d,e,f,y],[g,h,i,z],[0,0,0,1]])).getD 5 0] = 0) ∧
    (1e-8 ≤ Real.sin (pose_angle (Mat.mk [[a,b,c,x],[d,e,f,y],[g,h,i,z],[0,0,0,1]])) →
      UR_2_Pose (Pose_2_UR (Mat.mk [[a,b,c,x],[d,e,f,y],[g,h,i,z],[0,0,0,1]])) =
        Mat.mk [[a,b,c,x],[d,e,f,y],[g,h,i,z],[0,0,0,1]]) := by
  have ht3 := trace_le_three a b c d e f g h i h1 h2 h3
  have htm1 := trace_ge_neg_one a b c d e f g h i h1 h2 h3 h4 h5 h6 hdet
  have hu1 : (-1:ℝ) ≤ (a + e + i - 1) * 0.5 := by linarith
  have hu2 : (a + e + i - 1) * 0.5 ≤ 1 := by linarith
  have hclamp : min (max ((a + e + i - 1) * 0.5) (-1)) 1 = (a + e + i - 1) * 0.5 := by
    rw [max_eq_left hu1, min_eq_left hu2]
  have hθ0 : (0:ℝ) ≤ acos ((a + e + i - 1) * 0.5) := Real.arccos_nonneg _
  have hpa : pose_angle (Mat.mk [[a,b,c,x],[d,e,f,y],[g,h,i,z],[0,0,0,1]]) =
      acos ((a + e + i - 1) * 0.5) := by
    unfold pose_angle
    simp only [show (Mat.mk [[a,b,c,x],[d,e,f,y],[g,h,i,z],[0,0,0,1]]).get 0 0 = a from rfl,
      show (Mat.mk [[a,b,c,x],[d,e,f,y],[g,h,i,z],[0,0,0,1]]).get 1 1 = e from rfl,
      show (Mat.mk [[a,b,c,x],[d,e,f,y],[g,h,i,z],[0,0,0,1]]).get 2 2 = i from rfl]
    rw [show (a + e + i - 1) / 2 = (a + e + i - 1) * 0.5 from by ring, hclamp]
  refine ⟨?_, ?_, ?_⟩
  · by_cases hb1c : acos (min (max ((a + e + i - 1) * 0.5) (-1)) 1) < 1e-8
    · rw [ur_branch1 a b c d e f g h i x y z hb1c]
      simp only [listGet3, listGet4, listGet5]
      rw [norm_zero3, hpa]
      have hb1' : acos ((a + e + i - 1) * 0.5) < 1e-8 := by
        rw [hclamp] at hb1c
        exact hb1c
      rw [zero_sub, abs_neg, abs_of_nonneg hθ0]
      linarith
    · by_cases hb2c : |sin (acos (min (max ((a + e + i - 1) * 0.5) (-1)) 1))| < 1e-8 ∨
          norm [h - f, c - g, d - b] < 1e-8
      · by_cases hk0 : a ≥ e ∧ a ≥ i
        · rw [ur_fallback_k0 a b c d e f g h i x y z hb1c hb2c hk0]
          simp only [listGet3, listGet4, listGet5]
          rw [hclamp,
            ur_norm_fallback_k0 a b c d e f g h i h1 h2 h3 h4 h5 h6 hdet hk0.1 hk0.2, hpa]
          rw [sub_self, abs_zero]
          norm_num
        · by_cases hk1 : e ≥ i
          · rw [ur_fallback_k1 a b c d e f g h i x y z hb1c hb2c hk0 hk1]
            simp only [listGet3, listGet4, listGet5]
            have hae : a ≤ e := by
              rcases not_and_or.mp hk0 with h' | h'
              · linarith [not_le.mp h']
              · linarith [not_le.mp h']
            rw [hclamp,
              ur_norm_fallback_k1 a b c d e f g h i h1 h2 h3 h4 h5 h6 hdet hae hk1, hpa]
            rw [sub_self, abs_zero]
            norm_num
          · rw [ur_fallback_k2 a b c d e f g h i x y z hb1c hb2c hk0 hk1]
            simp only [listGet3, listGet4, listGet5]
            have hei : e ≤ i := le_of_lt (not_le.mp hk1)
            have hai : a ≤ i := by
              rcases not_and_or.mp hk0 with h' | h'
              · linarith [not_le.mp h']
              · linarith [not_le.mp h']
            rw [hclamp,
              ur_norm_fallback_k2 a b c d e f g h i h1 h2 h3 h4 h5 h6 hdet hai hei, hpa]
            rw [sub_self, abs_zero]
            norm_num
      · rw [ur_general a b c d e f g h i x y z hb1c hb2c]
        simp only [listGet3, listGet4, listGet5]
        push_neg at hb2c
        have hNpos : 0 < norm [h - f, c - g, d - b] :=
          lt_of_lt_of_le (by norm_num) hb2c.2
        rw [hclamp,
          ur_norm_general (h - f) (c - g) (d - b) (acos ((a + e + i - 1) * 0.5)) hθ0 hNpos,
          hpa]
        rw [sub_self, abs_zero]
        norm_num
  · intro hpl
    rw [hpa] at hpl
    have hb1c : acos (min (max ((a + e + i - 1) * 0.5) (-1)) 1) < 1e-8 := by
      rw [hclamp]
      exact hpl
    rw [ur_branch1 a b c d e f g h i x y z hb1c]
    simp only [listGet3, listGet4, listGet5]
    exact norm_zero3
  · intro hsl
    rw [hpa] at hsl
    exact ur_roundtrip a b c d e f g h i x y z h1 h2 h3 h4 h5 h6 hdet hsl

/-- C5 counterexample: the half-turn-free pure reflection-like pose
`diag(-1,-1,-1,1)` (the rotation block is `-I`, an improper rotation with
determinant -1) is accepted by `isHomogeneous` exactly, yet `Pose_2_UR`
lands in the degenerate fallback with `2*(1+mx) = 0`: the Python source
divides by `sqrt(0)` (a `ZeroDivisionError` risk), the embedded axis is
`[0, 0, 0]` while `pose_angle = π`, so the claimed `1e-6` agreement between
the axis norm and `pose_angle` fails. -/
theorem claim_C5_counterexample :
    (Mat.mk [[-1,0,0,0],[0,-1,0,0],[0,0,-1,0],[0,0,0,1]]).isHomogeneous ∧
    1e-6 <
      |norm [(Pose_2_UR (Mat.mk [[-1,0,0,0],[0,-1,0,0],[0,0,-1,0],[0,0,0,1]])).getD 3 0,
             (Pose_2_UR (Mat.mk [[-1,0,0,0],[0,-1,0,0],[0,0,-1,0],[0,0,0,1]])).getD 4 0,
             (Pose_2_UR (Mat.mk [[-1,0,0,0],[0,-1,0,0],[0,0,-1,0],[0,0,0,1]])).getD 5 0] -
        pose_angle (Mat.mk [[-1,0,0,0],[0,-1,0,0],[0,0,-1,0],[0,0,0,1]])| := by
  have hmm : min (max (((-1:ℝ) + -1 + -1 - 1) * 0.5) (-1)) 1 = -1 := by
    rw [show (((-1:ℝ) + -1 + -1 - 1) * 0.5) = -2 from by norm_num,
      max_eq_right (by norm_num : (-2:ℝ) ≤ -1), min_eq_left (by norm_num : (-1:ℝ) ≤ 1)]
  have hb1 : ¬ (acos (min (max (((-1:ℝ) + -1 + -1 - 1) * 0.5) (-1)) 1) < 1e-8) := by
    rw [hmm, show acos (-1:ℝ) = Real.pi from Real.arccos_neg_one]
    push_neg
    linarith [Real.pi_gt_three]
  have hb2 : |sin (acos (min (max (((-1:ℝ) + -1 + -1 - 1) * 0.5) (-1)) 1))| < 1e-8 ∨
      norm [(0:ℝ) - 0, 0 - 0, 0 - 0] < 1e-8 := by
    left
    rw [hmm, show acos (-1:ℝ) = Real.pi from Real.arccos_neg_one, 
      show sin Real.pi = Real.sin Real.pi from rfl, Real.sin_pi, abs_zero]
    norm_num
  have hk0 : (-1:ℝ) ≥ -1 ∧ (-1:ℝ) ≥ -1 := by norm_num
  have hhom : (Mat.mk [[-1,0,0,0],[0,-1,0,0],[0,0,-1,0],[0,0,0,1]]).isHomogeneous := by
    refine ⟨rfl, rfl, ?_⟩
    norm_num [Mat.homSum, Mat.homTest, Mat.setElem, Mat.setRange, Mat.subMat, Mat.matmul,
      Mat.tr, Mat.get, Mat.fromRows, Mat.nrows, Mat.ncols, List.range_succ]
  refine ⟨hhom, ?_⟩
  rw [ur_fallback_k0 (-1) 0 0 0 (-1) 0 0 0 (-1) 0 0 0 hb1 hb2 hk0]
  simp only [listGet3, listGet4, listGet5]
  have hpa1 : pose_angle (Mat.mk [[-1,0,0,0],[0,-1,0,0],[0,0,-1,0],[0,0,0,1]]) = Real.pi := by
    unfold pose_angle
    simp only [show (Mat.mk [[-1,0,0,0],[0,-1,0,0],[0,0,-1,0],[0,0,0,1]]).get 0 0 =
        (-1:ℝ) from rfl,
      show (Mat.mk [[-1,0,0,0],[0,-1,0,0],[0,0,-1,0],[0,0,0,1]]).get 1 1 = (-1:ℝ) from rfl,
      show (Mat.mk [[-1,0,0,0],[0,-1,0,0],[0,0,-1,0],[0,0,0,1]]).get 2 2 = (-1:ℝ) from rfl]
    rw [show ((-1:ℝ) + -1 + -1 - 1) / 2 = -2 from by norm_num,
      max_eq_right (by norm_num : (-2:ℝ) ≤ -1), min_eq_left (by norm_num : (-1:ℝ) ≤ 1)]
    exact Real.arccos_neg_one
  have hax : norm [((-1:ℝ) + 1) *
        (acos (min (max (((-1:ℝ) + -1 + -1 - 1) * 0.5) (-1)) 1) /
          sqrt (max 0 (2 * (1 + -1)))),
      (0:ℝ) * (acos (min (max (((-1:ℝ) + -1 + -1 - 1) * 0.5) (-1)) 1) /
          sqrt (max 0 (2 * (1 + -1)))),
      (0:ℝ) * (acos (min (max (((-1:ℝ) + -1 + -1 - 1) * 0.5) (-1)) 1) /
          sqrt (max 0 (2 * (1 + -1))))] = 0 := by
    rw [show ((-1:ℝ) + 1) = 0 from by norm_num, zero_mul]
    exact norm_zero3
  rw [hax, hpa1, zero_sub, abs_neg, abs_of_nonneg Real.pi_pos.le]
  linarith [Real.pi_gt_three]

/-- Witness for C5 at the proper rotation by 90 degrees about the x axis
with translation (10, 20, 30). -/
theorem claim_C5_witness :
    |norm [(Pose_2_UR (Mat.mk [[1,0,0,10],[0,0,-1,20],[0,1,0,30],[0,0,0,1]])).getD 3 0,
           (Pose_2_UR (Mat.mk [[1,0,0,10],[0,0,-1,20],[0,1,0,30],[0,0,0,1]])).getD 4 0,
           (Pose_2_UR (Mat.mk [[1,0,0,10],[0,0,-1,20],[0,1,0,30],[0,0,0,1]])).getD 5 0] -
        pose_angle (Mat.mk [[1,0,0,10],[0,0,-1,20],[0,1,0,30],[0,0,0,1]])| ≤ 1e-6 ∧
    (pose_angle (Mat.mk [[1,0,0,10],[0,0,-1,20],[0,1,0,30],[0,0,0,1]]) < 1e-8 →
      norm [(Pose_2_UR (Mat.mk [[1,0,0,10],[0,0,-1,20],[0,1,0,30],[0,0,0,1]])).getD 3 0,
            (Pose_2_UR (Mat.mk [[1,0,0,10],[0,0,-1,20],[0,1,0,30],[0,0,0,1]])).getD 4 0,
            (Pose_2_UR (Mat.mk [[1,0,0,10],[0,0,-1,20],[0,1,0,30],[0,0,0,1]])).getD 5 0] = 0) ∧
    (1e-8 ≤ Real.sin (pose_angle (Mat.mk [[1,0,0,10],[0,0,-1,20],[0,1,0,30],[0,0,0,1]])) →
      UR_2_Pose (Pose_2_UR (Mat.mk [[1,0,0,10],[0,0,-1,20],[0,1,0,30],[0,0,0,1]])) =
        Mat.mk [[1,0,0,10],[0,0,-1,20],[0,1,0,30],[0,0,0,1]]) :=
  claim_C5 1 0 0 0 0 (-1) 0 1 0 10 20 30 (by norm_num) (by norm_num) (by norm_num)
    (by norm_num) (by norm_num) (by norm_num) (by norm_num)

end RoboDK
